import Mathlib

/-!
Verification model of the Happy-Typeless AI batch-inference orchestration
layer (src/ai/base.py, src/ai/cache.py, src/ai/client.py, src/ai/analyzer.py).

Python floats carrying money amounts and rates are modelled as rationals
(ℚ); Python dicts are modelled as association lists with insertion-order
semantics (first-occurrence key position, last write wins); asynchronous
execution of the per-entry units of work is modelled sequentially in input
order, which is faithful for the state-counting and output-alignment
properties stated below.
-/

/-- Supported AI providers (src/ai/base.py, `ProviderType`). -/
inductive ProviderType where
  | openai
  | anthropic
  | zhipu
  | alibaba
  | deepseek
  | moonshot
  | minimax
deriving DecidableEq, BEq, Repr

/-- String value of a provider, as in the Python `str`-valued enum. -/
def ProviderType.value : ProviderType → String
  | .openai => "openai"
  | .anthropic => "anthropic"
  | .zhipu => "zhipu"
  | .alibaba => "alibaba"
  | .deepseek => "deepseek"
  | .moonshot => "moonshot"
  | .minimax => "minimax"

/-- An input/output rate pair, CNY per 1,000,000 tokens. -/
structure Pricing where
  input : ℚ
  output : ℚ
deriving DecidableEq, Repr

/-- Python dict lookup by key, on a dict modelled as an association list. -/
def pyLookup {κ α : Type} [DecidableEq κ] (k : κ) : List (κ × α) → Option α
  | [] => none
  | (k1, v1) :: rest => if k = k1 then some v1 else pyLookup k rest

/-- Python dict assignment, on a dict modelled as an association list with
unique keys: an existing key keeps its position and receives the new value;
a new key is appended at the end, matching dict insertion order. -/
def pyDictInsert {κ α : Type} [DecidableEq κ] : List (κ × α) → κ → α → List (κ × α)
  | [], k, v => [(k, v)]
  | (k1, v1) :: rest, k, v =>
    if k1 = k then (k, v) :: rest else (k1, v1) :: pyDictInsert rest k v

/-- Model-specific pricing table (src/ai/base.py, `MODEL_PRICING`).
Its source comment states that it takes precedence over the provider-level
`PRICING_TABLE`. -/
def MODEL_PRICING : List (String × Pricing) := [
  ("deepseek-chat", ⟨2, 3⟩),
  ("deepseek-v3", ⟨2, 3⟩),
  ("deepseek-v3-0324", ⟨2, 3⟩),
  ("deepseek-reasoner", ⟨2, 3⟩),
  ("deepseek-r1", ⟨2, 3⟩),
  ("deepseek-r1-0528", ⟨2, 3⟩),
  ("glm-4-flash", ⟨0, 0⟩),
  ("glm-4-flash-250414", ⟨0, 0⟩),
  ("glm-4-air", ⟨1/2, 1/2⟩),
  ("glm-4-airx", ⟨10, 10⟩),
  ("glm-4-long", ⟨1, 1⟩),
  ("glm-4-plus", ⟨5, 5⟩),
  ("glm-4", ⟨50, 50⟩),
  ("glm-4.6", ⟨2, 8⟩),
  ("glm-4.7", ⟨4, 16⟩),
  ("gpt-4o", ⟨18, 72⟩),
  ("gpt-4o-mini", ⟨11/10, 43/10⟩),
  ("gpt-4.1", ⟨72/5, 288/5⟩),
  ("gpt-4.1-mini", ⟨29/10, 23/2⟩),
  ("gpt-4.1-nano", ⟨7/10, 29/10⟩),
  ("o1", ⟨108, 432⟩),
  ("o1-mini", ⟨108/5, 432/5⟩),
  ("o3", ⟨72/5, 288/5⟩),
  ("o3-mini", ⟨79/10, 317/10⟩),
  ("o4-mini", ⟨79/10, 317/10⟩),
  ("claude-3-5-sonnet-20241022", ⟨108/5, 108⟩),
  ("claude-3-5-haiku-20241022", ⟨29/5, 144/5⟩),
  ("claude-3-opus-20240229", ⟨108, 540⟩),
  ("claude-sonnet-4-6", ⟨108/5, 108⟩),
  ("claude-haiku-4-5-20251001", ⟨36/5, 36⟩),
  ("claude-opus-4-6", ⟨108, 540⟩),
  ("moonshot-v1-8k", ⟨7/5, 72/5⟩),
  ("moonshot-v1-32k", ⟨36/5, 108/5⟩),
  ("moonshot-v1-128k", ⟨72/5, 36⟩),
  ("qwen-turbo", ⟨3/10, 3/5⟩),
  ("qwen-plus", ⟨4/5, 2⟩),
  ("qwen-max", ⟨40, 120⟩),
  ("qwen2.5-72b-instruct", ⟨4, 12⟩),
  ("qwen2.5-7b-instruct", ⟨2/5, 6/5⟩),
  ("abab6.5s-chat", ⟨1, 1⟩),
  ("abab6.5-chat", ⟨1, 1⟩)]

/-- Provider-level fallback pricing (src/ai/base.py, `PRICING_TABLE`). -/
def PRICING_TABLE : List (ProviderType × Pricing) := [
  (.zhipu, ⟨1/2, 2⟩),
  (.deepseek, ⟨2, 3⟩),
  (.openai, ⟨18, 72⟩),
  (.anthropic, ⟨108/5, 108⟩),
  (.moonshot, ⟨36/5, 108/5⟩),
  (.alibaba, ⟨1, 3⟩),
  (.minimax, ⟨1, 1⟩)]

/-- Configuration for a single AI provider (src/ai/base.py, `ModelConfig`). -/
structure ModelConfig where
  provider : ProviderType
  model_name : String
  api_key : String
  base_url : Option String := none
  timeout : ℤ := 30
  max_tokens : ℤ := 2048
deriving DecidableEq, Repr

/-- Token usage record (src/ai/base.py, `TokenUsage`). -/
structure TokenUsage where
  prompt_tokens : ℤ := 0
  completion_tokens : ℤ := 0
  total_tokens : ℤ := 0
deriving DecidableEq, Repr

/-- Single-run cost record (src/ai/base.py, `CostRecord`). -/
structure CostRecord where
  date : String
  provider : String
  model : String
  new_entries : ℤ
  cache_hits : ℤ
  tokens : ℤ
  cost_cny : ℚ
deriving DecidableEq, Repr

/-- Cost of one call as the code computes it (src/ai/client.py,
`AIClient._calc_cost`): a provider-level `PRICING_TABLE` lookup with the
generic default rate pair (1, 1) when the provider is unlisted; the
model-specific `MODEL_PRICING` table is not consulted. -/
def calc_cost (provider : ProviderType) (usage : TokenUsage) : ℚ :=
  let pricing := (pyLookup provider PRICING_TABLE).getD ⟨1, 1⟩
  usage.prompt_tokens * pricing.input / 1000000
    + usage.completion_tokens * pricing.output / 1000000

/-- Rate resolution exactly as the spec describes it: the model-specific
rate when the model is listed in `MODEL_PRICING`, else the provider-level
rate from `PRICING_TABLE`, else the generic default (1, 1). -/
def spec_rate (model : String) (provider : ProviderType) : Pricing :=
  match pyLookup model MODEL_PRICING with
  | some p => p
  | none => (pyLookup provider PRICING_TABLE).getD ⟨1, 1⟩

/-- Cost of one call as the spec claims it is computed, using `spec_rate`. -/
def spec_calc_cost (model : String) (provider : ProviderType)
    (usage : TokenUsage) : ℚ :=
  let pricing := spec_rate model provider
  usage.prompt_tokens * pricing.input / 1000000
    + usage.completion_tokens * pricing.output / 1000000

/-- JSON values, the persisted form of the cache file and the shape produced
by pydantic model dumping in JSON mode. Numbers are rationals. -/
inductive JValue where
  | null
  | jbool (b : Bool)
  | jnum (q : ℚ)
  | jstr (s : String)
  | jarr (xs : List JValue)
  | jobj (fields : List (String × JValue))

/-- Field lookup by name in a JSON object (name-keyed, order-irrelevant),
as pydantic validation reads keyword fields from a parsed dict. -/
def JValue.getField (j : JValue) (k : String) : Option JValue :=
  match j with
  | .jobj fields => pyLookup k fields
  | _ => none

/-- Decode a JSON string. -/
def JValue.asStr : JValue → Option String
  | .jstr s => some s
  | _ => none

/-- Decode a JSON number as a rational (a Python float field). -/
def JValue.asNum : JValue → Option ℚ
  | .jnum q => some q
  | _ => none

/-- Decode a JSON boolean. -/
def JValue.asBool : JValue → Option Bool
  | .jbool b => some b
  | _ => none

/-- Decode a JSON number as an integer (a Python int field): the number must
be integral. -/
def JValue.asInt (j : JValue) : Option ℤ :=
  match j with
  | .jnum q => if q.den = 1 then some q.num else none
  | _ => none

/-- Validate each element of a list, failing if any element fails, as
pydantic list validation does. -/
def traverseOpt {α β : Type} (f : α → Option β) : List α → Option (List β)
  | [] => some []
  | a :: as =>
    match f a, traverseOpt f as with
    | some b, some bs => some (b :: bs)
    | _, _ => none

/-- Decode a JSON array of strings. -/
def JValue.asStrList : JValue → Option (List String)
  | .jarr xs => traverseOpt JValue.asStr xs
  | _ => none

/-- Decode a JSON array of numbers. -/
def JValue.asNumList : JValue → Option (List ℚ)
  | .jarr xs => traverseOpt JValue.asNum xs
  | _ => none

/-- Decode a JSON object with number values (a Python dict of str to float). -/
def JValue.asNumMap : JValue → Option (List (String × ℚ))
  | .jobj fields => traverseOpt (fun p => (JValue.asNum p.2).map (fun q => (p.1, q))) fields
  | _ => none

/-- Encode a list of strings. -/
def jstrList (xs : List String) : JValue := .jarr (xs.map .jstr)

/-- Encode a list of numbers. -/
def jnumList (xs : List ℚ) : JValue := .jarr (xs.map .jnum)

/-- Encode a dict of str to float. -/
def jnumMap (xs : List (String × ℚ)) : JValue :=
  .jobj (xs.map (fun p => (p.1, .jnum p.2)))

/-- Literal values of `SentimentAnalysis.label`. -/
inductive SentimentLabel where
  | positive | neutral | negative
deriving DecidableEq, Repr

/-- String form of a sentiment label. -/
def SentimentLabel.toStr : SentimentLabel → String
  | .positive => "positive"
  | .neutral => "neutral"
  | .negative => "negative"

/-- Validate a sentiment label string. -/
def SentimentLabel.ofStr : String → Option SentimentLabel
  | "positive" => some .positive
  | "neutral" => some .neutral
  | "negative" => some .negative
  | _ => none

/-- Literal values of `IntentAnalysis.primary`. -/
inductive IntentPrimary where
  | question | statement | command | request | expression | complaint | gratitude
deriving DecidableEq, Repr

/-- String form of a primary intent. -/
def IntentPrimary.toStr : IntentPrimary → String
  | .question => "question"
  | .statement => "statement"
  | .command => "command"
  | .request => "request"
  | .expression => "expression"
  | .complaint => "complaint"
  | .gratitude => "gratitude"

/-- Validate a primary intent string. -/
def IntentPrimary.ofStr : String → Option IntentPrimary
  | "question" => some .question
  | "statement" => some .statement
  | "command" => some .command
  | "request" => some .request
  | "expression" => some .expression
  | "complaint" => some .complaint
  | "gratitude" => some .gratitude
  | _ => none

/-- Literal values of `IntentAnalysis.urgency`. -/
inductive IntentUrgency where
  | immediate | normal | low
deriving DecidableEq, Repr

/-- String form of an intent urgency. -/
def IntentUrgency.toStr : IntentUrgency → String
  | .immediate => "immediate"
  | .normal => "normal"
  | .low => "low"

/-- Validate an intent urgency string. -/
def IntentUrgency.ofStr : String → Option IntentUrgency
  | "immediate" => some .immediate
  | "normal" => some .normal
  | "low" => some .low
  | _ => none

/-- Literal values of `EmotionAnalysis.primary`. -/
inductive EmotionPrimary where
  | joy | anger | sadness | fear | surprise | disgust | neutral
deriving DecidableEq, Repr

/-- String form of a primary emotion. -/
def EmotionPrimary.toStr : EmotionPrimary → String
  | .joy => "joy"
  | .anger => "anger"
  | .sadness => "sadness"
  | .fear => "fear"
  | .surprise => "surprise"
  | .disgust => "disgust"
  | .neutral => "neutral"

/-- Validate a primary emotion string. -/
def EmotionPrimary.ofStr : String → Option EmotionPrimary
  | "joy" => some .joy
  | "anger" => some .anger
  | "sadness" => some .sadness
  | "fear" => some .fear
  | "surprise" => some .surprise
  | "disgust" => some .disgust
  | "neutral" => some .neutral
  | _ => none

/-- Literal values of `PersonalityProfile.thinking_style`. -/
inductive ThinkingStyle where
  | analytical | intuitive | creative | practical
deriving DecidableEq, Repr

/-- String form of a thinking style. -/
def ThinkingStyle.toStr : ThinkingStyle → String
  | .analytical => "analytical"
  | .intuitive => "intuitive"
  | .creative => "creative"
  | .practical => "practical"

/-- Validate a thinking style string. -/
def ThinkingStyle.ofStr : String → Option ThinkingStyle
  | "analytical" => some .analytical
  | "intuitive" => some .intuitive
  | "creative" => some .creative
  | "practical" => some .practical
  | _ => none

/-- Literal values of `PersonalityProfile.problem_style`. -/
inductive ProblemStyle where
  | systematic | intuitive | collaborative | independent
deriving DecidableEq, Repr

/-- String form of a problem style. -/
def ProblemStyle.toStr : ProblemStyle → String
  | .systematic => "systematic"
  | .intuitive => "intuitive"
  | .collaborative => "collaborative"
  | .independent => "independent"

/-- Validate a problem style string. -/
def ProblemStyle.ofStr : String → Option ProblemStyle
  | "systematic" => some .systematic
  | "intuitive" => some .intuitive
  | "collaborative" => some .collaborative
  | "independent" => some .independent
  | _ => none

/-- Literal values of `MentalHealthIndicators.burnout_risk` and
`TemporalContext.fatigue_indicator` (low / medium / high). -/
inductive RiskLevel where
  | low | medium | high
deriving DecidableEq, Repr

/-- String form of a low/medium/high level. -/
def RiskLevel.toStr : RiskLevel → String
  | .low => "low"
  | .medium => "medium"
  | .high => "high"

/-- Validate a low/medium/high level string. -/
def RiskLevel.ofStr : String → Option RiskLevel
  | "low" => some .low
  | "medium" => some .medium
  | "high" => some .high
  | _ => none

/-- Literal values of `MentalHealthIndicators.anxiety_pattern`. -/
inductive AnxietyPattern where
  | improving | stable | worsening
deriving DecidableEq, Repr

/-- String form of an anxiety pattern. -/
def AnxietyPattern.toStr : AnxietyPattern → String
  | .improving => "improving"
  | .stable => "stable"
  | .worsening => "worsening"

/-- Validate an anxiety pattern string. -/
def AnxietyPattern.ofStr : String → Option AnxietyPattern
  | "improving" => some .improving
  | "stable" => some .stable
  | "worsening" => some .worsening
  | _ => none

/-- Literal values of `ProfanityDetection.severity`. -/
inductive ProfanitySeverity where
  | mild | moderate | severe
deriving DecidableEq, Repr

/-- String form of a profanity severity. -/
def ProfanitySeverity.toStr : ProfanitySeverity → String
  | .mild => "mild"
  | .moderate => "moderate"
  | .severe => "severe"

/-- Validate a profanity severity string. -/
def ProfanitySeverity.ofStr : String → Option ProfanitySeverity
  | "mild" => some .mild
  | "moderate" => some .moderate
  | "severe" => some .severe
  | _ => none

/-- Literal values of `ProfanityDetection.trigger_category`. -/
inductive TriggerCategory where
  | frustration | anger | habit | humor
deriving DecidableEq, Repr

/-- String form of a trigger category. -/
def TriggerCategory.toStr : TriggerCategory → String
  | .frustration => "frustration"
  | .anger => "anger"
  | .habit => "habit"
  | .humor => "humor"

/-- Validate a trigger category string. -/
def TriggerCategory.ofStr : String → Option TriggerCategory
  | "frustration" => some .frustration
  | "anger" => some .anger
  | "habit" => some .habit
  | "humor" => some .humor
  | _ => none

/-- Literal values of `ComplexityMetrics.readability`. -/
inductive Readability where
  | simple | medium | complex | academic
deriving DecidableEq, Repr

/-- String form of a readability level. -/
def Readability.toStr : Readability → String
  | .simple => "simple"
  | .medium => "medium"
  | .complex => "complex"
  | .academic => "academic"

/-- Validate a readability level string. -/
def Readability.ofStr : String → Option Readability
  | "simple" => some .simple
  | "medium" => some .medium
  | "complex" => some .complex
  | "academic" => some .academic
  | _ => none

/-- Literal values of `SpeechPatterns.pace`. -/
inductive Pace where
  | slow | normal | fast | variable
deriving DecidableEq, Repr

/-- String form of a speech pace. -/
def Pace.toStr : Pace → String
  | .slow => "slow"
  | .normal => "normal"
  | .fast => "fast"
  | .variable => "variable"

/-- Validate a speech pace string. -/
def Pace.ofStr : String → Option Pace
  | "slow" => some .slow
  | "normal" => some .normal
  | "fast" => some .fast
  | "variable" => some .variable
  | _ => none

/-- Literal values of `SocialIndicators.social_focus`. -/
inductive SocialFocus where
  | individual | collaborative | observational
deriving DecidableEq, Repr

/-- String form of a social focus. -/
def SocialFocus.toStr : SocialFocus → String
  | .individual => "individual"
  | .collaborative => "collaborative"
  | .observational => "observational"

/-- Validate a social focus string. -/
def SocialFocus.ofStr : String → Option SocialFocus
  | "individual" => some .individual
  | "collaborative" => some .collaborative
  | "observational" => some .observational
  | _ => none

/-- Literal values of `TemporalContext.circadian_phase`. -/
inductive CircadianPhase where
  | active | rest | transition
deriving DecidableEq, Repr

/-- String form of a circadian phase. -/
def CircadianPhase.toStr : CircadianPhase → String
  | .active => "active"
  | .rest => "rest"
  | .transition => "transition"

/-- Validate a circadian phase string. -/
def CircadianPhase.ofStr : String → Option CircadianPhase
  | "active" => some .active
  | "rest" => some .rest
  | "transition" => some .transition
  | _ => none

/-- Literal values of `LanguageMixing.dominant`. -/
inductive DominantLanguage where
  | zh | en | mixed
deriving DecidableEq, Repr

/-- String form of a dominant language. -/
def DominantLanguage.toStr : DominantLanguage → String
  | .zh => "zh"
  | .en => "en"
  | .mixed => "mixed"

/-- Validate a dominant language string. -/
def DominantLanguage.ofStr : String → Option DominantLanguage
  | "zh" => some .zh
  | "en" => some .en
  | "mixed" => some .mixed
  | _ => none

/-- Literal values of `CreativeSignal.novelty`. -/
inductive NoveltyLevel where
  | routine | variation | breakthrough
deriving DecidableEq, Repr

/-- String form of a novelty level. -/
def NoveltyLevel.toStr : NoveltyLevel → String
  | .routine => "routine"
  | .variation => "variation"
  | .breakthrough => "breakthrough"

/-- Validate a novelty level string. -/
def NoveltyLevel.ofStr : String → Option NoveltyLevel
  | "routine" => some .routine
  | "variation" => some .variation
  | "breakthrough" => some .breakthrough
  | _ => none

/-- Literal values of `HumorSignal.type`. -/
inductive HumorType where
  | self_deprecating | observational | sarcastic
deriving DecidableEq, Repr

/-- String form of a humor type. -/
def HumorType.toStr : HumorType → String
  | .self_deprecating => "self_deprecating"
  | .observational => "observational"
  | .sarcastic => "sarcastic"

/-- Validate a humor type string. -/
def HumorType.ofStr : String → Option HumorType
  | "self_deprecating" => some .self_deprecating
  | "observational" => some .observational
  | "sarcastic" => some .sarcastic
  | _ => none

/-- Literal values of `TimePerception.urgency`. -/
inductive TimeUrgency where
  | urgent | normal | relaxed
deriving DecidableEq, Repr

/-- String form of a time-perception urgency. -/
def TimeUrgency.toStr : TimeUrgency → String
  | .urgent => "urgent"
  | .normal => "normal"
  | .relaxed => "relaxed"

/-- Validate a time-perception urgency string. -/
def TimeUrgency.ofStr : String → Option TimeUrgency
  | "urgent" => some .urgent
  | "normal" => some .normal
  | "relaxed" => some .relaxed
  | _ => none

/-- Literal values of `AITranscriptionAnalysis.emotion_trigger`. -/
inductive EmotionTrigger where
  | technical_frustration | social_conflict | achievement | uncertainty | external_pressure
deriving DecidableEq, Repr

/-- String form of an emotion trigger. -/
def EmotionTrigger.toStr : EmotionTrigger → String
  | .technical_frustration => "technical_frustration"
  | .social_conflict => "social_conflict"
  | .achievement => "achievement"
  | .uncertainty => "uncertainty"
  | .external_pressure => "external_pressure"

/-- Validate an emotion trigger string. -/
def EmotionTrigger.ofStr : String → Option EmotionTrigger
  | "technical_frustration" => some .technical_frustration
  | "social_conflict" => some .social_conflict
  | "achievement" => some .achievement
  | "uncertainty" => some .uncertainty
  | "external_pressure" => some .external_pressure
  | _ => none

/-- Literal values of `AITranscriptionAnalysis.commitment_strength`. -/
inductive CommitmentStrength where
  | vague | intended | committed
deriving DecidableEq, Repr

/-- String form of a commitment strength. -/
def CommitmentStrength.toStr : CommitmentStrength → String
  | .vague => "vague"
  | .intended => "intended"
  | .committed => "committed"

/-- Validate a commitment strength string. -/
def CommitmentStrength.ofStr : String → Option CommitmentStrength
  | "vague" => some .vague
  | "intended" => some .intended
  | "committed" => some .committed
  | _ => none

/-- Encode an optional literal field: absent values dump as JSON null. -/
def joptEnum {α : Type} (f : α → String) : Option α → JValue
  | none => .null
  | some a => .jstr (f a)

/-- Decode a required literal field. -/
def JValue.asEnum {α : Type} (f : String → Option α) : JValue → Option α
  | .jstr s => f s
  | _ => none

/-- Decode an optional literal field: JSON null validates as absent. -/
def JValue.asOptEnum {α : Type} (f : String → Option α) : JValue → Option (Option α)
  | .null => some none
  | .jstr s => (f s).map some
  | _ => none

/-- Encode an optional sub-model: absent values dump as JSON null. -/
def joptSub {α : Type} (f : α → JValue) : Option α → JValue
  | none => .null
  | some a => f a

/-- Decode an optional sub-model: JSON null validates as absent. -/
def JValue.asOptSub {α : Type} (f : JValue → Option α) : JValue → Option (Option α)
  | .null => some none
  | j => (f j).map some

/-- Sentiment polarity analysis (src/models/ai_analysis.py). -/
structure SentimentAnalysis where
  score : ℚ
  label : SentimentLabel
  confidence : ℚ := 4/5
deriving DecidableEq, Repr

/-- Dump a `SentimentAnalysis` in JSON mode. -/
def SentimentAnalysis.toJson (x : SentimentAnalysis) : JValue :=
  .jobj [("score", .jnum x.score), ("label", .jstr x.label.toStr),
    ("confidence", .jnum x.confidence)]

/-- Validate a `SentimentAnalysis` from JSON. -/
def SentimentAnalysis.fromJson? (j : JValue) : Option SentimentAnalysis := do
  let score ← (j.getField "score").bind JValue.asNum
  let label ← (j.getField "label").bind (JValue.asEnum SentimentLabel.ofStr)
  let confidence ← (j.getField "confidence").bind JValue.asNum
  pure ⟨score, label, confidence⟩

/-- Intent classification (src/models/ai_analysis.py). -/
structure IntentAnalysis where
  primary : IntentPrimary
  secondary : List String := []
  urgency : IntentUrgency := .normal
deriving DecidableEq, Repr

/-- Dump an `IntentAnalysis` in JSON mode. -/
def IntentAnalysis.toJson (x : IntentAnalysis) : JValue :=
  .jobj [("primary", .jstr x.primary.toStr), ("secondary", jstrList x.secondary),
    ("urgency", .jstr x.urgency.toStr)]

/-- Validate an `IntentAnalysis` from JSON. -/
def IntentAnalysis.fromJson? (j : JValue) : Option IntentAnalysis := do
  let primary ← (j.getField "primary").bind (JValue.asEnum IntentPrimary.ofStr)
  let secondary ← (j.getField "secondary").bind JValue.asStrList
  let urgency ← (j.getField "urgency").bind (JValue.asEnum IntentUrgency.ofStr)
  pure ⟨primary, secondary, urgency⟩

/-- Emotion classification (src/models/ai_analysis.py). -/
structure EmotionAnalysis where
  primary : EmotionPrimary
  intensity : ℚ := 3/10
  mixed : Bool := false
  transition_potential : ℚ := 0
deriving DecidableEq, Repr

/-- Dump an `EmotionAnalysis` in JSON mode. -/
def EmotionAnalysis.toJson (x : EmotionAnalysis) : JValue :=
  .jobj [("primary", .jstr x.primary.toStr), ("intensity", .jnum x.intensity),
    ("mixed", .jbool x.mixed), ("transition_potential", .jnum x.transition_potential)]

/-- Validate an `EmotionAnalysis` from JSON. -/
def EmotionAnalysis.fromJson? (j : JValue) : Option EmotionAnalysis := do
  let primary ← (j.getField "primary").bind (JValue.asEnum EmotionPrimary.ofStr)
  let intensity ← (j.getField "intensity").bind JValue.asNum
  let mixed ← (j.getField "mixed").bind JValue.asBool
  let tp ← (j.getField "transition_potential").bind JValue.asNum
  pure ⟨primary, intensity, mixed, tp⟩

/-- Communication style metrics (src/models/ai_analysis.py). -/
structure CommunicationStyle where
  directness : ℚ := 1/2
  formality : ℚ := 1/2
  assertiveness : ℚ := 1/2
deriving DecidableEq, Repr

/-- Dump a `CommunicationStyle` in JSON mode. -/
def CommunicationStyle.toJson (x : CommunicationStyle) : JValue :=
  .jobj [("directness", .jnum x.directness), ("formality", .jnum x.formality),
    ("assertiveness", .jnum x.assertiveness)]

/-- Validate a `CommunicationStyle` from JSON. -/
def CommunicationStyle.fromJson? (j : JValue) : Option CommunicationStyle := do
  let directness ← (j.getField "directness").bind JValue.asNum
  let formality ← (j.getField "formality").bind JValue.asNum
  let assertiveness ← (j.getField "assertiveness").bind JValue.asNum
  pure ⟨directness, formality, assertiveness⟩

/-- Big Five personality traits (src/models/ai_analysis.py). -/
structure BigFivePersonality where
  openness : ℚ := 1/2
  conscientiousness : ℚ := 1/2
  extraversion : ℚ := 1/2
  agreeableness : ℚ := 1/2
  neuroticism : ℚ := 1/2
deriving DecidableEq, Repr

/-- Dump a `BigFivePersonality` in JSON mode. -/
def BigFivePersonality.toJson (x : BigFivePersonality) : JValue :=
  .jobj [("openness", .jnum x.openness), ("conscientiousness", .jnum x.conscientiousness),
    ("extraversion", .jnum x.extraversion), ("agreeableness", .jnum x.agreeableness),
    ("neuroticism", .jnum x.neuroticism)]

/-- Validate a `BigFivePersonality` from JSON. -/
def BigFivePersonality.fromJson? (j : JValue) : Option BigFivePersonality := do
  let openness ← (j.getField "openness").bind JValue.asNum
  let conscientiousness ← (j.getField "conscientiousness").bind JValue.asNum
  let extraversion ← (j.getField "extraversion").bind JValue.asNum
  let agreeableness ← (j.getField "agreeableness").bind JValue.asNum
  let neuroticism ← (j.getField "neuroticism").bind JValue.asNum
  pure ⟨openness, conscientiousness, extraversion, agreeableness, neuroticism⟩

/-- Extended personality profile (src/models/ai_analysis.py). -/
structure PersonalityProfile where
  big_five : BigFivePersonality := {}
  thinking_style : ThinkingStyle := .analytical
  problem_style : ProblemStyle := .systematic
deriving DecidableEq, Repr

/-- Dump a `PersonalityProfile` in JSON mode. -/
def PersonalityProfile.toJson (x : PersonalityProfile) : JValue :=
  .jobj [("big_five", x.big_five.toJson), ("thinking_style", .jstr x.thinking_style.toStr),
    ("problem_style", .jstr x.problem_style.toStr)]

/-- Validate a `PersonalityProfile` from JSON. -/
def PersonalityProfile.fromJson? (j : JValue) : Option PersonalityProfile := do
  let big_five ← (j.getField "big_five").bind BigFivePersonality.fromJson?
  let ts ← (j.getField "thinking_style").bind (JValue.asEnum ThinkingStyle.ofStr)
  let ps ← (j.getField "problem_style").bind (JValue.asEnum ProblemStyle.ofStr)
  pure ⟨big_five, ts, ps⟩

/-- Mental health indicators (src/models/ai_analysis.py). -/
structure MentalHealthIndicators where
  stress_level : ℚ := 3/10
  burnout_risk : RiskLevel := .low
  anxiety_pattern : AnxietyPattern := .stable
  optimism_score : ℚ := 3/5
  rumination_score : ℚ := 1/5
deriving DecidableEq, Repr

/-- Dump a `MentalHealthIndicators` in JSON mode. -/
def MentalHealthIndicators.toJson (x : MentalHealthIndicators) : JValue :=
  .jobj [("stress_level", .jnum x.stress_level), ("burnout_risk", .jstr x.burnout_risk.toStr),
    ("anxiety_pattern", .jstr x.anxiety_pattern.toStr),
    ("optimism_score", .jnum x.optimism_score),
    ("rumination_score", .jnum x.rumination_score)]

/-- Validate a `MentalHealthIndicators` from JSON. -/
def MentalHealthIndicators.fromJson? (j : JValue) : Option MentalHealthIndicators := do
  let stress ← (j.getField "stress_level").bind JValue.asNum
  let burnout ← (j.getField "burnout_risk").bind (JValue.asEnum RiskLevel.ofStr)
  let anxiety ← (j.getField "anxiety_pattern").bind (JValue.asEnum AnxietyPattern.ofStr)
  let optimism ← (j.getField "optimism_score").bind JValue.asNum
  let rumination ← (j.getField "rumination_score").bind JValue.asNum
  pure ⟨stress, burnout, anxiety, optimism, rumination⟩

/-- Content type flags (src/models/ai_analysis.py). -/
structure ContentFlags where
  has_goal : Bool := false
  has_decision : Bool := false
  has_complaint : Bool := false
  has_gratitude : Bool := false
  has_plan : Bool := false
  has_action_item : Bool := false
  is_profound : Bool := false
deriving DecidableEq, Repr

/-- Dump a `ContentFlags` in JSON mode. -/
def ContentFlags.toJson (x : ContentFlags) : JValue :=
  .jobj [("has_goal", .jbool x.has_goal), ("has_decision", .jbool x.has_decision),
    ("has_complaint", .jbool x.has_complaint), ("has_gratitude", .jbool x.has_gratitude),
    ("has_plan", .jbool x.has_plan), ("has_action_item", .jbool x.has_action_item),
    ("is_profound", .jbool x.is_profound)]

/-- Validate a `ContentFlags` from JSON. -/
def ContentFlags.fromJson? (j : JValue) : Option ContentFlags := do
  let a ← (j.getField "has_goal").bind JValue.asBool
  let b ← (j.getField "has_decision").bind JValue.asBool
  let c ← (j.getField "has_complaint").bind JValue.asBool
  let d ← (j.getField "has_gratitude").bind JValue.asBool
  let e ← (j.getField "has_plan").bind JValue.asBool
  let f ← (j.getField "has_action_item").bind JValue.asBool
  let g ← (j.getField "is_profound").bind JValue.asBool
  pure ⟨a, b, c, d, e, f, g⟩

/-- Profanity and negative language detection (src/models/ai_analysis.py). -/
structure ProfanityDetection where
  has_profanity : Bool := false
  severity : Option ProfanitySeverity := none
  trigger_category : Option TriggerCategory := none
deriving DecidableEq, Repr

/-- Dump a `ProfanityDetection` in JSON mode. -/
def ProfanityDetection.toJson (x : ProfanityDetection) : JValue :=
  .jobj [("has_profanity", .jbool x.has_profanity),
    ("severity", joptEnum ProfanitySeverity.toStr x.severity),
    ("trigger_category", joptEnum TriggerCategory.toStr x.trigger_category)]

/-- Validate a `ProfanityDetection` from JSON. -/
def ProfanityDetection.fromJson? (j : JValue) : Option ProfanityDetection := do
  let hp ← (j.getField "has_profanity").bind JValue.asBool
  let sev ← (j.getField "severity").bind (JValue.asOptEnum ProfanitySeverity.ofStr)
  let tc ← (j.getField "trigger_category").bind (JValue.asOptEnum TriggerCategory.ofStr)
  pure ⟨hp, sev, tc⟩

/-- Text complexity metrics (src/models/ai_analysis.py). -/
structure ComplexityMetrics where
  overall : ℚ := 2/5
  syntactic : ℚ := 3/10
  lexical_diversity : ℚ := 1/2
  readability : Readability := .medium
deriving DecidableEq, Repr

/-- Dump a `ComplexityMetrics` in JSON mode. -/
def ComplexityMetrics.toJson (x : ComplexityMetrics) : JValue :=
  .jobj [("overall", .jnum x.overall), ("syntactic", .jnum x.syntactic),
    ("lexical_diversity", .jnum x.lexical_diversity),
    ("readability", .jstr x.readability.toStr)]

/-- Validate a `ComplexityMetrics` from JSON. -/
def ComplexityMetrics.fromJson? (j : JValue) : Option ComplexityMetrics := do
  let overall ← (j.getField "overall").bind JValue.asNum
  let syntactic ← (j.getField "syntactic").bind JValue.asNum
  let ld ← (j.getField "lexical_diversity").bind JValue.asNum
  let readability ← (j.getField "readability").bind (JValue.asEnum Readability.ofStr)
  pure ⟨overall, syntactic, ld, readability⟩

/-- Named entity extraction (src/models/ai_analysis.py). -/
structure Entities where
  people : List String := []
  places : List String := []
  organizations : List String := []
  dates : List String := []
  numbers : List ℚ := []
deriving DecidableEq, Repr

/-- Dump an `Entities` in JSON mode. -/
def Entities.toJson (x : Entities) : JValue :=
  .jobj [("people", jstrList x.people), ("places", jstrList x.places),
    ("organizations", jstrList x.organizations), ("dates", jstrList x.dates),
    ("numbers", jnumList x.numbers)]

/-- Validate an `Entities` from JSON. -/
def Entities.fromJson? (j : JValue) : Option Entities := do
  let people ← (j.getField "people").bind JValue.asStrList
  let places ← (j.getField "places").bind JValue.asStrList
  let organizations ← (j.getField "organizations").bind JValue.asStrList
  let dates ← (j.getField "dates").bind JValue.asStrList
  let numbers ← (j.getField "numbers").bind JValue.asNumList
  pure ⟨people, places, organizations, dates, numbers⟩

/-- Speech fluency and rhythm (src/models/ai_analysis.py). -/
structure SpeechPatterns where
  fluency : ℚ := 4/5
  hesitation_count : ℤ := 0
  self_correction_count : ℤ := 0
  repetition_count : ℤ := 0
  pace : Pace := .normal
deriving DecidableEq, Repr

/-- Dump a `SpeechPatterns` in JSON mode. -/
def SpeechPatterns.toJson (x : SpeechPatterns) : JValue :=
  .jobj [("fluency", .jnum x.fluency), ("hesitation_count", .jnum x.hesitation_count),
    ("self_correction_count", .jnum x.self_correction_count),
    ("repetition_count", .jnum x.repetition_count), ("pace", .jstr x.pace.toStr)]

/-- Validate a `SpeechPatterns` from JSON. -/
def SpeechPatterns.fromJson? (j : JValue) : Option SpeechPatterns := do
  let fluency ← (j.getField "fluency").bind JValue.asNum
  let hc ← (j.getField "hesitation_count").bind JValue.asInt
  let scc ← (j.getField "self_correction_count").bind JValue.asInt
  let rc ← (j.getField "repetition_count").bind JValue.asInt
  let pace ← (j.getField "pace").bind (JValue.asEnum Pace.ofStr)
  pure ⟨fluency, hc, scc, rc, pace⟩

/-- Social and relationship patterns (src/models/ai_analysis.py). -/
structure SocialIndicators where
  pronoun_ratio : List (String × ℚ) := [("i", 1)]
  gratitude_complaint_ratio : ℚ := 1/2
  social_focus : SocialFocus := .individual
deriving DecidableEq, Repr

/-- Dump a `SocialIndicators` in JSON mode. -/
def SocialIndicators.toJson (x : SocialIndicators) : JValue :=
  .jobj [("pronoun_ratio", jnumMap x.pronoun_ratio),
    ("gratitude_complaint_ratio", .jnum x.gratitude_complaint_ratio),
    ("social_focus", .jstr x.social_focus.toStr)]

/-- Validate a `SocialIndicators` from JSON. -/
def SocialIndicators.fromJson? (j : JValue) : Option SocialIndicators := do
  let pr ← (j.getField "pronoun_ratio").bind JValue.asNumMap
  let gcr ← (j.getField "gratitude_complaint_ratio").bind JValue.asNum
  let sf ← (j.getField "social_focus").bind (JValue.asEnum SocialFocus.ofStr)
  pure ⟨pr, gcr, sf⟩

/-- Cognitive distortion detection (src/models/ai_analysis.py). -/
structure CognitiveDistortions where
  absolutist_language : Bool := false
  catastrophizing : Bool := false
  overgeneralization : Bool := false
deriving DecidableEq, Repr

/-- Dump a `CognitiveDistortions` in JSON mode. -/
def CognitiveDistortions.toJson (x : CognitiveDistortions) : JValue :=
  .jobj [("absolutist_language", .jbool x.absolutist_language),
    ("catastrophizing", .jbool x.catastrophizing),
    ("overgeneralization", .jbool x.overgeneralization)]

/-- Validate a `CognitiveDistortions` from JSON. -/
def CognitiveDistortions.fromJson? (j : JValue) : Option CognitiveDistortions := do
  let a ← (j.getField "absolutist_language").bind JValue.asBool
  let b ← (j.getField "catastrophizing").bind JValue.asBool
  let c ← (j.getField "overgeneralization").bind JValue.asBool
  pure ⟨a, b, c⟩

/-- Question depth analysis (src/models/ai_analysis.py). -/
structure QuestionDepth where
  is_rhetorical : Bool := false
  is_open : Bool := false
  is_complex : Bool := false
  chain_depth : ℤ := 0
deriving DecidableEq, Repr

/-- Dump a `QuestionDepth` in JSON mode. -/
def QuestionDepth.toJson (x : QuestionDepth) : JValue :=
  .jobj [("is_rhetorical", .jbool x.is_rhetorical), ("is_open", .jbool x.is_open),
    ("is_complex", .jbool x.is_complex), ("chain_depth", .jnum x.chain_depth)]

/-- Validate a `QuestionDepth` from JSON. -/
def QuestionDepth.fromJson? (j : JValue) : Option QuestionDepth := do
  let a ← (j.getField "is_rhetorical").bind JValue.asBool
  let b ← (j.getField "is_open").bind JValue.asBool
  let c ← (j.getField "is_complex").bind JValue.asBool
  let d ← (j.getField "chain_depth").bind JValue.asInt
  pure ⟨a, b, c, d⟩

/-- Temporal dimension context (src/models/ai_analysis.py). -/
structure TemporalContext where
  circadian_phase : CircadianPhase := .active
  fatigue_indicator : RiskLevel := .low
  energy_level : ℚ := 1/2
deriving DecidableEq, Repr

/-- Dump a `TemporalContext` in JSON mode. -/
def TemporalContext.toJson (x : TemporalContext) : JValue :=
  .jobj [("circadian_phase", .jstr x.circadian_phase.toStr),
    ("fatigue_indicator", .jstr x.fatigue_indicator.toStr),
    ("energy_level", .jnum x.energy_level)]

/-- Validate a `TemporalContext` from JSON. -/
def TemporalContext.fromJson? (j : JValue) : Option TemporalContext := do
  let cp ← (j.getField "circadian_phase").bind (JValue.asEnum CircadianPhase.ofStr)
  let fi ← (j.getField "fatigue_indicator").bind (JValue.asEnum RiskLevel.ofStr)
  let el ← (j.getField "energy_level").bind JValue.asNum
  pure ⟨cp, fi, el⟩

/-- Language mixing detection (src/models/ai_analysis.py). -/
structure LanguageMixing where
  dominant : DominantLanguage := .zh
  code_switch_count : ℤ := 0
  en_ratio : ℚ := 0
deriving DecidableEq, Repr

/-- Dump a `LanguageMixing` in JSON mode. -/
def LanguageMixing.toJson (x : LanguageMixing) : JValue :=
  .jobj [("dominant", .jstr x.dominant.toStr),
    ("code_switch_count", .jnum x.code_switch_count), ("en_ratio", .jnum x.en_ratio)]

/-- Validate a `LanguageMixing` from JSON. -/
def LanguageMixing.fromJson? (j : JValue) : Option LanguageMixing := do
  let dominant ← (j.getField "dominant").bind (JValue.asEnum DominantLanguage.ofStr)
  let csc ← (j.getField "code_switch_count").bind JValue.asInt
  let er ← (j.getField "en_ratio").bind JValue.asNum
  pure ⟨dominant, csc, er⟩

/-- Creative and inspiration pattern detection (src/models/ai_analysis.py). -/
structure CreativeSignal where
  is_brainstorm : Bool := false
  idea_density : ℚ := 0
  novelty : NoveltyLevel := .routine
deriving DecidableEq, Repr

/-- Dump a `CreativeSignal` in JSON mode. -/
def CreativeSignal.toJson (x : CreativeSignal) : JValue :=
  .jobj [("is_brainstorm", .jbool x.is_brainstorm), ("idea_density", .jnum x.idea_density),
    ("novelty", .jstr x.novelty.toStr)]

/-- Validate a `CreativeSignal` from JSON. -/
def CreativeSignal.fromJson? (j : JValue) : Option CreativeSignal := do
  let ib ← (j.getField "is_brainstorm").bind JValue.asBool
  let idd ← (j.getField "idea_density").bind JValue.asNum
  let novelty ← (j.getField "novelty").bind (JValue.asEnum NoveltyLevel.ofStr)
  pure ⟨ib, idd, novelty⟩

/-- Humor and joke detection (src/models/ai_analysis.py). -/
structure HumorSignal where
  detected : Bool := false
  type : Option HumorType := none
deriving DecidableEq, Repr

/-- Dump a `HumorSignal` in JSON mode. -/
def HumorSignal.toJson (x : HumorSignal) : JValue :=
  .jobj [("detected", .jbool x.detected), ("type", joptEnum HumorType.toStr x.type)]

/-- Validate a `HumorSignal` from JSON. -/
def HumorSignal.fromJson? (j : JValue) : Option HumorSignal := do
  let detected ← (j.getField "detected").bind JValue.asBool
  let t ← (j.getField "type").bind (JValue.asOptEnum HumorType.ofStr)
  pure ⟨detected, t⟩

/-- Time perception analysis (src/models/ai_analysis.py). -/
structure TimePerception where
  urgency : TimeUrgency := .normal
  references_past : Bool := false
  references_future : Bool := false
deriving DecidableEq, Repr

/-- Dump a `TimePerception` in JSON mode. -/
def TimePerception.toJson (x : TimePerception) : JValue :=
  .jobj [("urgency", .jstr x.urgency.toStr), ("references_past", .jbool x.references_past),
    ("references_future", .jbool x.references_future)]

/-- Validate a `TimePerception` from JSON. -/
def TimePerception.fromJson? (j : JValue) : Option TimePerception := do
  let urgency ← (j.getField "urgency").bind (JValue.asEnum TimeUrgency.ofStr)
  let rp ← (j.getField "references_past").bind JValue.asBool
  let rf ← (j.getField "references_future").bind JValue.asBool
  pure ⟨urgency, rp, rf⟩

/-- Complete AI analysis result for a single voice transcription
(src/models/ai_analysis.py, `AITranscriptionAnalysis`). -/
structure AITranscriptionAnalysis where
  sentiment : SentimentAnalysis
  intent : IntentAnalysis
  emotion : EmotionAnalysis
  topics : List String := []
  communication_style : CommunicationStyle := {}
  personality : PersonalityProfile := {}
  mental_health : MentalHealthIndicators := {}
  content_flags : ContentFlags := {}
  profanity : ProfanityDetection := {}
  complexity : ComplexityMetrics := {}
  entities : Entities := {}
  speech_patterns : SpeechPatterns := {}
  social_indicators : SocialIndicators := {}
  cognitive_distortions : CognitiveDistortions := {}
  question_depth : Option QuestionDepth := none
  temporal_context : TemporalContext := {}
  language_mixing : LanguageMixing := {}
  creative_signal : CreativeSignal := {}
  emotion_trigger : Option EmotionTrigger := none
  commitment_strength : Option CommitmentStrength := none
  humor : HumorSignal := {}
  time_perception : TimePerception := {}
deriving DecidableEq, Repr

/-- Dump an `AITranscriptionAnalysis` in JSON mode, as
`model_dump(mode="json")` does when the cache is saved. -/
def AITranscriptionAnalysis.toJson (x : AITranscriptionAnalysis) : JValue :=
  .jobj [("sentiment", x.sentiment.toJson), ("intent", x.intent.toJson),
    ("emotion", x.emotion.toJson), ("topics", jstrList x.topics),
    ("communication_style", x.communication_style.toJson),
    ("personality", x.personality.toJson), ("mental_health", x.mental_health.toJson),
    ("content_flags", x.content_flags.toJson), ("profanity", x.profanity.toJson),
    ("complexity", x.complexity.toJson), ("entities", x.entities.toJson),
    ("speech_patterns", x.speech_patterns.toJson),
    ("social_indicators", x.social_indicators.toJson),
    ("cognitive_distortions", x.cognitive_distortions.toJson),
    ("question_depth", joptSub QuestionDepth.toJson x.question_depth),
    ("temporal_context", x.temporal_context.toJson),
    ("language_mixing", x.language_mixing.toJson),
    ("creative_signal", x.creative_signal.toJson),
    ("emotion_trigger", joptEnum EmotionTrigger.toStr x.emotion_trigger),
    ("commitment_strength", joptEnum CommitmentStrength.toStr x.commitment_strength),
    ("humor", x.humor.toJson), ("time_perception", x.time_perception.toJson)]

/-- Validate the core group of fields of an `AITranscriptionAnalysis`. -/
def AITranscriptionAnalysis.fromJsonCore? (j : JValue) :
    Option (SentimentAnalysis × IntentAnalysis × EmotionAnalysis × List String ×
      CommunicationStyle × PersonalityProfile × MentalHealthIndicators) :=
  ((j.getField "sentiment").bind SentimentAnalysis.fromJson?).bind fun sentiment =>
  ((j.getField "intent").bind IntentAnalysis.fromJson?).bind fun intent =>
  ((j.getField "emotion").bind EmotionAnalysis.fromJson?).bind fun emotion =>
  ((j.getField "topics").bind JValue.asStrList).bind fun topics =>
  ((j.getField "communication_style").bind CommunicationStyle.fromJson?).bind fun cs =>
  ((j.getField "personality").bind PersonalityProfile.fromJson?).bind fun personality =>
  ((j.getField "mental_health").bind MentalHealthIndicators.fromJson?).bind fun mh =>
  some (sentiment, intent, emotion, topics, cs, personality, mh)

/-- Validate the content and pattern group of fields of an
`AITranscriptionAnalysis`. -/
def AITranscriptionAnalysis.fromJsonContent? (j : JValue) :
    Option (ContentFlags × ProfanityDetection × ComplexityMetrics × Entities ×
      SpeechPatterns × SocialIndicators × CognitiveDistortions) :=
  ((j.getField "content_flags").bind ContentFlags.fromJson?).bind fun cf =>
  ((j.getField "profanity").bind ProfanityDetection.fromJson?).bind fun profanity =>
  ((j.getField "complexity").bind ComplexityMetrics.fromJson?).bind fun complexity =>
  ((j.getField "entities").bind Entities.fromJson?).bind fun entities =>
  ((j.getField "speech_patterns").bind SpeechPatterns.fromJson?).bind fun sp =>
  ((j.getField "social_indicators").bind SocialIndicators.fromJson?).bind fun si =>
  ((j.getField "cognitive_distortions").bind CognitiveDistortions.fromJson?).bind fun cd =>
  some (cf, profanity, complexity, entities, sp, si, cd)

/-- Validate the temporal and extended-insight group of fields of an
`AITranscriptionAnalysis`. -/
def AITranscriptionAnalysis.fromJsonTail? (j : JValue) :
    Option (Option QuestionDepth × TemporalContext × LanguageMixing × CreativeSignal ×
      Option EmotionTrigger × Option CommitmentStrength × HumorSignal × TimePerception) :=
  ((j.getField "question_depth").bind (JValue.asOptSub QuestionDepth.fromJson?)).bind fun qd =>
  ((j.getField "temporal_context").bind TemporalContext.fromJson?).bind fun tc =>
  ((j.getField "language_mixing").bind LanguageMixing.fromJson?).bind fun lm =>
  ((j.getField "creative_signal").bind CreativeSignal.fromJson?).bind fun crs =>
  ((j.getField "emotion_trigger").bind (JValue.asOptEnum EmotionTrigger.ofStr)).bind fun et =>
  ((j.getField "commitment_strength").bind (JValue.asOptEnum CommitmentStrength.ofStr)).bind fun cst =>
  ((j.getField "humor").bind HumorSignal.fromJson?).bind fun humor =>
  ((j.getField "time_perception").bind TimePerception.fromJson?).bind fun tper =>
  some (qd, tc, lm, crs, et, cst, humor, tper)

/-- Validate an `AITranscriptionAnalysis` from JSON, as pydantic does when
the cache file is loaded. All fields are validated by name. -/
def AITranscriptionAnalysis.fromJson? (j : JValue) : Option AITranscriptionAnalysis :=
  (AITranscriptionAnalysis.fromJsonCore? j).bind fun a =>
  (AITranscriptionAnalysis.fromJsonContent? j).bind fun b =>
  (AITranscriptionAnalysis.fromJsonTail? j).bind fun c =>
  match a, b, c with
  | (sentiment, intent, emotion, topics, cs, personality, mh),
    (cf, profanity, complexity, entities, sp, si, cd),
    (qd, tc, lm, crs, et, cst, humor, tper) =>
    some (AITranscriptionAnalysis.mk sentiment intent emotion topics cs personality mh cf
      profanity complexity entities sp si cd qd tc lm crs et cst humor tper)

/-- AI analysis cache store (src/models/ai_analysis.py, `AIAnalysisCache`):
format version, last-updated stamp, model and provider the store was built
for, and the id-keyed map of analyses. -/
structure AIAnalysisCache where
  version : String := "1.0"
  last_updated : String
  model : String
  provider : String
  analyses : List (String × AITranscriptionAnalysis) := []
deriving DecidableEq, Repr

/-- Decode the analyses map of a cache store. -/
def JValue.asAnalysesMap : JValue → Option (List (String × AITranscriptionAnalysis))
  | .jobj fields =>
    traverseOpt (fun p => (AITranscriptionAnalysis.fromJson? p.2).map (fun a => (p.1, a))) fields
  | _ => none

/-- Dump an `AIAnalysisCache` in JSON mode, the persisted cache file shape. -/
def AIAnalysisCache.toJson (c : AIAnalysisCache) : JValue :=
  .jobj [("version", .jstr c.version), ("last_updated", .jstr c.last_updated),
    ("model", .jstr c.model), ("provider", .jstr c.provider),
    ("analyses", .jobj (c.analyses.map (fun p => (p.1, p.2.toJson))))]

/-- Validate an `AIAnalysisCache` from JSON, as `AIAnalysisCache(**raw)`
does in `AICache._load`. -/
def AIAnalysisCache.fromJson? (j : JValue) : Option AIAnalysisCache :=
  ((j.getField "version").bind JValue.asStr).bind fun version =>
  ((j.getField "last_updated").bind JValue.asStr).bind fun last_updated =>
  ((j.getField "model").bind JValue.asStr).bind fun model =>
  ((j.getField "provider").bind JValue.asStr).bind fun provider =>
  ((j.getField "analyses").bind JValue.asAnalysesMap).bind fun analyses =>
  some ⟨version, last_updated, model, provider, analyses⟩

/-- The file system as far as the orchestration layer sees it: a mapping
from paths to parsed JSON file contents. -/
def Disk : Type := List (String × JValue)

/-- Write a whole file, overwriting any previous content. -/
def Disk.write (disk : Disk) (path : String) (content : JValue) : Disk :=
  pyDictInsert disk path content

/-- Read a file, `none` when the file does not exist. -/
def Disk.read (disk : Disk) (path : String) : Option JValue :=
  pyLookup path disk

/-- In-memory cache manager (src/ai/cache.py, `AICache`). -/
structure AICache where
  path : String
  model : String
  provider : String
  data : AIAnalysisCache
deriving DecidableEq, Repr

/-- Construct an `AICache` (src/ai/cache.py, `AICache.__init__` with
`_load`): a missing file yields a fresh empty store stamped with the
current model and provider; a present file is parsed and validated, a parse
or validation failure being a fatal construction error (`none`); a model
mismatch only logs a warning and keeps every loaded entry usable as-is. -/
def AICache.load (path model provider now : String) (disk : Disk) : Option AICache :=
  match disk.read path with
  | none => some ⟨path, model, provider, ⟨"1.0", now, model, provider, []⟩⟩
  | some j => (AIAnalysisCache.fromJson? j).map (fun d => ⟨path, model, provider, d⟩)

/-- Cached result lookup by transcription id (src/ai/cache.py, `AICache.get`). -/
def AICache.get (c : AICache) (transcription_id : String) :
    Option AITranscriptionAnalysis :=
  pyLookup transcription_id c.data.analyses

/-- In-memory write of one analysis (src/ai/cache.py, `AICache.set`): updates
the map and the last-updated stamp, does not touch the disk. -/
def AICache.set (c : AICache) (transcription_id : String)
    (analysis : AITranscriptionAnalysis) (now : String) : AICache :=
  { c with data := { c.data with
      analyses := pyDictInsert c.data.analyses transcription_id analysis,
      last_updated := now } }

/-- Persist the whole store to disk, overwriting the previous file
(src/ai/cache.py, `AICache.save`). -/
def AICache.save (c : AICache) (disk : Disk) : Disk :=
  disk.write c.path c.data.toJson

/-- Empty the in-memory map and immediately persist the empty store
(src/ai/cache.py, `AICache.clear`). -/
def AICache.clear (c : AICache) (disk : Disk) : AICache × Disk :=
  let c2 := { c with data := { c.data with analyses := [] } }
  (c2, c2.save disk)

/-- Single voice transcription record (src/models/transcription.py). -/
structure Transcription where
  id : String
  timestamp : ℤ
  content : String
  duration : Option ℚ := none
  app_name : Option String := none
  window_title : Option String := none
deriving DecidableEq, Repr

/-- Static parameters of an `AIClient` (src/ai/client.py,
`AIClient.__init__`). -/
structure ClientParams where
  primary : ModelConfig
  fallbacks : List ModelConfig := []
  concurrency : ℕ := 20
  max_cost_cny : ℚ := 10
  cost_log_path : String := "data/cost_log.json"
deriving DecidableEq, Repr

/-- Provider chain of a client as the constructor builds it: the Python dict
comprehensions keyed by `cfg.provider` collapse duplicate provider kinds,
keeping first-occurrence position and the last configuration written for
that kind; iteration follows dict insertion order. -/
def ClientParams.chain (P : ClientParams) : List (ProviderType × ModelConfig) :=
  (P.primary :: P.fallbacks).foldl (fun d cfg => pyDictInsert d cfg.provider cfg) []

/-- Mutable run state of the client and the world it touches: the in-memory
cache, the disk, the persisted cost log, and the run counters zeroed by
`AIClient.__init__`. -/
structure ClientState where
  cache : AICache
  disk : Disk
  cost_log : List CostRecord := []
  total_cost : ℚ := 0
  new_entries : ℤ := 0
  cache_hits : ℤ := 0
  failed_count : ℤ := 0
  total_tokens : ℤ := 0

/-- Budget circuit breaker (src/ai/client.py, `AIClient._exceeded_budget`). -/
def exceeded_budget (P : ClientParams) (s : ClientState) : Bool :=
  s.total_cost ≥ P.max_cost_cny

/-- How one provider call resolves for a given configuration and entry:
either an exception (any fault, after the transport retries are exhausted)
or a parsed result together with the token usage the provider reported, as
`AIClient._call_api` resolves. -/
inductive CallOutcome where
  | raises
  | succeeds (result : AITranscriptionAnalysis) (usage : Option TokenUsage)

/-- Abrupt ends of the batch: an external cancellation, or any other
exception escaping the gather. -/
inductive InterruptKind where
  | cancelled
  | error
deriving DecidableEq, Repr

/-- Deterministic environment of one run: how each provider call resolves,
the wall clock, and an optional interruption of the batch after a number of
entries have been processed. -/
structure Env where
  call : ModelConfig → Transcription → CallOutcome
  now : String
  interrupt : Option (ℕ × InterruptKind) := none

/-- Outcome classification of one entry. -/
inductive EntryOutcome where
  | hit
  | success
  | budget_skip
  | failure
deriving DecidableEq, Repr

/-- Observable trace of one entry: the provider configurations attempted
against the network, whether a concurrency slot was taken, and the outcome. -/
structure EntryTrace where
  attempts : List ModelConfig
  slot : Bool
  outcome : EntryOutcome
deriving DecidableEq, Repr

/-- The provider fail-over loop (src/ai/client.py, `AIClient._analyze_one`,
the loop over `self._clients.items()`): providers are attempted in chain
order; on the first success, cost and tokens are accounted when the call
reports usage, the result is written to the cache, `new_entries` is
incremented, every 20th new entry triggers an incremental save, and the
loop stops; an exception moves on to the next provider. -/
def tryProviders (env : Env) (t : Transcription) :
    List (ProviderType × ModelConfig) → ClientState →
    Option AITranscriptionAnalysis × ClientState × List ModelConfig
  | [], s => (none, s, [])
  | (provider_type, config) :: rest, s =>
    match env.call config t with
    | .raises =>
      let (r, s2, att) := tryProviders env t rest s
      (r, s2, config :: att)
    | .succeeds result usage? =>
      let s1 :=
        match usage? with
        | some usage =>
          { s with
            total_cost := s.total_cost + calc_cost provider_type usage,
            total_tokens := s.total_tokens + usage.prompt_tokens + usage.completion_tokens }
        | none => s
      let s2 := { s1 with
        cache := s1.cache.set t.id result env.now,
        new_entries := s1.new_entries + 1 }
      let s3 :=
        if s2.new_entries % 20 = 0 then { s2 with disk := s2.cache.save s2.disk } else s2
      (some result, s3, [config])

/-- Analyze a single transcription (src/ai/client.py, `AIClient._analyze_one`):
a cache hit returns immediately before any concurrency slot is taken; on a
miss a slot is taken, the budget circuit breaker may skip the entry as a
deliberate no-op, otherwise the provider fail-over loop runs, and exhaustion
of the whole chain counts one failure. -/
def analyze_one (P : ClientParams) (env : Env) (t : Transcription) (s : ClientState) :
    Option AITranscriptionAnalysis × ClientState × EntryTrace :=
  match s.cache.get t.id with
  | some cached =>
    (some cached, { s with cache_hits := s.cache_hits + 1 }, ⟨[], false, .hit⟩)
  | none =>
    if exceeded_budget P s then
      (none, s, ⟨[], true, .budget_skip⟩)
    else
      match tryProviders env t P.chain s with
      | (some r, s2, att) => (some r, s2, ⟨att, true, .success⟩)
      | (none, s2, att) =>
        (none, { s2 with failed_count := s2.failed_count + 1 }, ⟨att, true, .failure⟩)

/-- Sequential model of the gathered per-entry tasks: entries are processed
in input order and the result list is aligned 1:1 with the input list. -/
def analyze_batch_entries (P : ClientParams) (env : Env) :
    List Transcription → ClientState →
    List (Option AITranscriptionAnalysis) × ClientState × List EntryTrace
  | [], s => ([], s, [])
  | t :: ts, s =>
    let (r, s1, tr) := analyze_one P env t s
    let (rs, s2, trs) := analyze_batch_entries P env ts s1
    (r :: rs, s2, tr :: trs)

/-- Result of the gathered batch: completed with the aligned result list, or
interrupted part-way. -/
inductive BatchResult where
  | ok (results : List (Option AITranscriptionAnalysis))
  | interrupted (kind : InterruptKind)

/-- The async batch (src/ai/client.py, `AIClient._analyze_batch_async`):
either the gather completes with the aligned results, or it is interrupted
after a prefix of the entries has been processed; a cancellation is caught,
the cache is saved, and the cancellation is re-raised; any other exception
propagates directly. -/
def analyze_batch_async (P : ClientParams) (env : Env) (ts : List Transcription)
    (s : ClientState) : BatchResult × ClientState × List EntryTrace :=
  match env.interrupt with
  | none =>
    let (rs, s1, trs) := analyze_batch_entries P env ts s
    (.ok rs, s1, trs)
  | some (k, kind) =>
    let (_, s1, trs) := analyze_batch_entries P env (ts.take k) s
    match kind with
    | .cancelled => (.interrupted .cancelled, { s1 with disk := s1.cache.save s1.disk }, trs)
    | .error => (.interrupted .error, s1, trs)

/-- Round half to even (banker's rounding) of a rational to an integer. -/
def roundHalfEven (q : ℚ) : ℤ :=
  let f := ⌊q⌋
  if q - f < 1/2 then f
  else if (1:ℚ)/2 < q - f then f + 1
  else if f % 2 = 0 then f else f + 1

/-- Python `round(x, 4)`: banker's rounding at the fourth decimal place. -/
def pyRound4 (q : ℚ) : ℚ := (roundHalfEven (q * 10000) : ℚ) / 10000

/-- The cost record `AIClient.save_cost_log` builds for the current run: the
primary provider's identity, the run counters, and the running total cost
rounded to 4 decimal places. -/
def mkCostRecord (P : ClientParams) (env : Env) (s : ClientState) : CostRecord :=
  { date := env.now, provider := P.primary.provider.value,
    model := P.primary.model_name, new_entries := s.new_entries,
    cache_hits := s.cache_hits, tokens := s.total_tokens,
    cost_cny := pyRound4 s.total_cost }

/-- Append the current run cost record to the append-only cost log
(src/ai/client.py, `AIClient.save_cost_log`). -/
def save_cost_log (P : ClientParams) (env : Env) (s : ClientState) : ClientState :=
  { s with cost_log := s.cost_log ++ [mkCostRecord P env s] }

/-- Exposed run statistic (src/ai/analyzer.py, `AIAnalyzer.run_cost`): the
client's running total cost, unrounded. -/
def run_cost (s : ClientState) : ℚ := s.total_cost

/-- One step of the result-dict construction: an entry with a result is
written into the dict under its id, an absent result is skipped. -/
def buildStep (m : List (String × AITranscriptionAnalysis))
    (p : Transcription × Option AITranscriptionAnalysis) :
    List (String × AITranscriptionAnalysis) :=
  match p.2 with
  | some r => pyDictInsert m p.1.id r
  | none => m

/-- Build the returned dict from the entries and the aligned result list
(src/ai/analyzer.py, `AIAnalyzer.analyze`, the final zip loop): entries with
no result are omitted, never bound to an error marker. -/
def buildResults (ts : List Transcription) (rs : List (Option AITranscriptionAnalysis)) :
    List (String × AITranscriptionAnalysis) :=
  (List.zip ts rs).foldl buildStep []

/-- Result of one orchestrator run: the id-keyed result map, or the
re-raised interruption. -/
inductive RunOutcome where
  | ok (results : List (String × AITranscriptionAnalysis))
  | interrupted (kind : InterruptKind)

/-- One orchestrator run (src/ai/analyzer.py, `AIAnalyzer.analyze`): drive
the batch, then, on every exit path, save the cache and append exactly one
cost record before returning; an interruption is re-raised after the flush. -/
def AIAnalyzer.analyze (P : ClientParams) (env : Env) (ts : List Transcription)
    (s : ClientState) : RunOutcome × ClientState :=
  let (br, s1, _) := analyze_batch_async P env ts s
  let s2 := { s1 with disk := s1.cache.save s1.disk }
  let s3 := save_cost_log P env s2
  match br with
  | .ok rs => (.ok (buildResults ts rs), s3)
  | .interrupted kind => (.interrupted kind, s3)

/-- The outcome `analyze` reports for a given batch result: completed
batches are folded into the id-keyed map, interruptions are re-raised. -/
def runOutcomeOf (ts : List Transcription) : BatchResult → RunOutcome
  | .ok rs => .ok (buildResults ts rs)
  | .interrupted kind => .interrupted kind

/-- Construction of the orchestrator (src/ai/analyzer.py,
`AIAnalyzer.__init__` composed with `AIClient.__init__`): load or create the
cache over the cache file (a corrupt file is a fatal construction error),
optionally clear it when `force_refresh` is set, and zero the run counters.
The counters are zeroed here, at construction, and nowhere else. -/
def AIAnalyzer.init (P : ClientParams) (cache_path : String) (force_refresh : Bool)
    (now : String) (disk : Disk) (cost_log : List CostRecord) : Option ClientState :=
  (AICache.load cache_path P.primary.model_name P.primary.provider.value now disk).map
    fun c =>
      let cd := if force_refresh then c.clear disk else (c, disk)
      { cache := cd.1, disk := cd.2, cost_log := cost_log }

/-- A concrete analysis value for concrete runs. -/
def sampleAnalysis : AITranscriptionAnalysis :=
  { sentiment := { score := 1/2, label := .positive },
    intent := { primary := .question },
    emotion := { primary := .joy } }

/-- A second, distinct concrete analysis value. -/
def sampleAnalysis2 : AITranscriptionAnalysis :=
  { sentiment := { score := -1/4, label := .negative },
    intent := { primary := .complaint, secondary := ["deadline"], urgency := .immediate },
    emotion := { primary := .anger, intensity := 9/10, mixed := true } }

/-- A concrete transcription. -/
def ta : Transcription :=
  { id := "id_a", timestamp := 1700000000, content := "test content a" }

/-- A second concrete transcription. -/
def tb : Transcription :=
  { id := "id_b", timestamp := 1700000060, content := "test content b" }

/-- A concrete Zhipu configuration, as in the repository's own tests. -/
def zhipuConfig : ModelConfig :=
  { provider := .zhipu, model_name := "glm-4-flash", api_key := "test_key" }

/-- A concrete DeepSeek primary configuration. -/
def dsPrimary : ModelConfig :=
  { provider := .deepseek, model_name := "deepseek-chat", api_key := "test_key" }

/-- A concrete DeepSeek fallback configuration sharing the primary's
provider kind but carrying a different model. -/
def dsFallback : ModelConfig :=
  { provider := .deepseek, model_name := "deepseek-reasoner", api_key := "test_key" }

/-- Client parameters with the Zhipu primary and library defaults. -/
def zhipuParams : ClientParams := { primary := zhipuConfig }

/-- Client parameters with the budget ceiling set to zero. -/
def zhipuParamsZeroBudget : ClientParams := { primary := zhipuConfig, max_cost_cny := 0 }

/-- Client parameters whose fallback repeats the primary's provider kind. -/
def dsDupParams : ClientParams := { primary := dsPrimary, fallbacks := [dsFallback] }

/-- An environment in which every provider call raises. -/
def envAllRaise : Env := { call := fun _ _ => .raises, now := "t1" }

/-- An environment in which every provider call succeeds with
`sampleAnalysis` and the given token usage. -/
def envSucceed (usage : Option TokenUsage) : Env :=
  { call := fun _ _ => .succeeds sampleAnalysis usage, now := "t1" }

/-- A cache manager whose store holds the given analyses. -/
def sampleCache (analyses : List (String × AITranscriptionAnalysis)) : AICache :=
  { path := "data/ai_cache.json", model := "glm-4-flash", provider := "zhipu",
    data := { last_updated := "t0", model := "glm-4-flash", provider := "zhipu",
              analyses := analyses } }

/-- A freshly constructed client state over the given cached analyses, with
the run counters zeroed as `AIClient.__init__` does. -/
def freshState (analyses : List (String × AITranscriptionAnalysis)) : ClientState :=
  { cache := sampleCache analyses, disk := [] }

/-- Looking up the key just written into a dict yields the written value. -/
theorem pyLookup_pyDictInsert_self {κ α : Type} [DecidableEq κ]
    (d : List (κ × α)) (k : κ) (v : α) :
    pyLookup k (pyDictInsert d k v) = some v := by
  induction d with
  | nil => simp [pyDictInsert, pyLookup]
  | cons p rest ih =>
    obtain ⟨k1, v1⟩ := p
    rw [pyDictInsert]
    by_cases hp : k1 = k
    · rw [if_pos hp, pyLookup, if_pos rfl]
    · rw [if_neg hp, pyLookup, if_neg (fun hh => hp hh.symm)]
      exact ih

/-- Writing one key into a dict leaves every other key's lookup unchanged. -/
theorem pyLookup_pyDictInsert_ne {κ α : Type} [DecidableEq κ]
    (d : List (κ × α)) (k k2 : κ) (v : α) (hne : k2 ≠ k) :
    pyLookup k2 (pyDictInsert d k v) = pyLookup k2 d := by
  induction d with
  | nil =>
    rw [pyDictInsert]
    simp [pyLookup, hne]
  | cons p rest ih =>
    obtain ⟨k1, v1⟩ := p
    rw [pyDictInsert]
    by_cases hp : k1 = k
    · rw [if_pos hp, pyLookup, pyLookup, if_neg (hp ▸ hne)]
      subst hp
      rw [if_neg hne]
    · rw [if_neg hp, pyLookup, pyLookup]
      by_cases hk : k2 = k1
      · rw [if_pos hk, if_pos hk]
      · rw [if_neg hk, if_neg hk]
        exact ih

/-- Element-wise validation inverts element-wise encoding. -/
theorem traverseOpt_map {α β : Type} (f : β → Option α) (g : α → β)
    (h : ∀ a, f (g a) = some a) :
    ∀ xs : List α, traverseOpt f (xs.map g) = some xs := by
  intro xs
  induction xs with
  | nil => rfl
  | cons a as ih => simp [traverseOpt, h, ih]

/-- Sentiment labels validate back from their string form. -/
theorem SentimentLabel_ofStr_toStr (e : SentimentLabel) : SentimentLabel.ofStr e.toStr = some e := by
  cases e <;> rfl

/-- Primary intents validate back from their string form. -/
theorem IntentPrimary_ofStr_toStr (e : IntentPrimary) : IntentPrimary.ofStr e.toStr = some e := by
  cases e <;> rfl

/-- Intent urgencies validate back from their string form. -/
theorem IntentUrgency_ofStr_toStr (e : IntentUrgency) : IntentUrgency.ofStr e.toStr = some e := by
  cases e <;> rfl

/-- Primary emotions validate back from their string form. -/
theorem EmotionPrimary_ofStr_toStr (e : EmotionPrimary) : EmotionPrimary.ofStr e.toStr = some e := by
  cases e <;> rfl

/-- Thinking styles validate back from their string form. -/
theorem ThinkingStyle_ofStr_toStr (e : ThinkingStyle) : ThinkingStyle.ofStr e.toStr = some e := by
  cases e <;> rfl

/-- Problem styles validate back from their string form. -/
theorem ProblemStyle_ofStr_toStr (e : ProblemStyle) : ProblemStyle.ofStr e.toStr = some e := by
  cases e <;> rfl

/-- Risk levels validate back from their string form. -/
theorem RiskLevel_ofStr_toStr (e : RiskLevel) : RiskLevel.ofStr e.toStr = some e := by
  cases e <;> rfl

/-- Anxiety patterns validate back from their string form. -/
theorem AnxietyPattern_ofStr_toStr (e : AnxietyPattern) : AnxietyPattern.ofStr e.toStr = some e := by
  cases e <;> rfl

/-- Profanity severities validate back from their string form. -/
theorem ProfanitySeverity_ofStr_toStr (e : ProfanitySeverity) :
    ProfanitySeverity.ofStr e.toStr = some e := by
  cases e <;> rfl

/-- Trigger categories validate back from their string form. -/
theorem TriggerCategory_ofStr_toStr (e : TriggerCategory) :
    TriggerCategory.ofStr e.toStr = some e := by
  cases e <;> rfl

/-- Readability levels validate back from their string form. -/
theorem Readability_ofStr_toStr (e : Readability) : Readability.ofStr e.toStr = some e := by
  cases e <;> rfl

/-- Speech paces validate back from their string form. -/
theorem Pace_ofStr_toStr (e : Pace) : Pace.ofStr e.toStr = some e := by
  cases e <;> rfl

/-- Social focuses validate back from their string form. -/
theorem SocialFocus_ofStr_toStr (e : SocialFocus) : SocialFocus.ofStr e.toStr = some e := by
  cases e <;> rfl

/-- Circadian phases validate back from their string form. -/
theorem CircadianPhase_ofStr_toStr (e : CircadianPhase) : CircadianPhase.ofStr e.toStr = some e := by
  cases e <;> rfl

/-- Dominant languages validate back from their string form. -/
theorem DominantLanguage_ofStr_toStr (e : DominantLanguage) :
    DominantLanguage.ofStr e.toStr = some e := by
  cases e <;> rfl

/-- Novelty levels validate back from their string form. -/
theorem NoveltyLevel_ofStr_toStr (e : NoveltyLevel) : NoveltyLevel.ofStr e.toStr = some e := by
  cases e <;> rfl

/-- Humor types validate back from their string form. -/
theorem HumorType_ofStr_toStr (e : HumorType) : HumorType.ofStr e.toStr = some e := by
  cases e <;> rfl

/-- Time-perception urgencies validate back from their string form. -/
theorem TimeUrgency_ofStr_toStr (e : TimeUrgency) : TimeUrgency.ofStr e.toStr = some e := by
  cases e <;> rfl

/-- Emotion triggers validate back from their string form. -/
theorem EmotionTrigger_ofStr_toStr (e : EmotionTrigger) : EmotionTrigger.ofStr e.toStr = some e := by
  cases e <;> rfl

/-- Commitment strengths validate back from their string form. -/
theorem CommitmentStrength_ofStr_toStr (e : CommitmentStrength) :
    CommitmentStrength.ofStr e.toStr = some e := by
  cases e <;> rfl

/-- Optional literal fields round-trip through JSON. -/
theorem asOptEnum_joptEnum {α : Type} (f : String → Option α) (g : α → String)
    (h : ∀ a, f (g a) = some a) (o : Option α) :
    JValue.asOptEnum f (joptEnum g o) = some o := by
  cases o with
  | none => rfl
  | some a => simp [joptEnum, JValue.asOptEnum, h]

/-- Integer fields round-trip through a JSON number. -/
theorem asInt_jnum (n : ℤ) : JValue.asInt (.jnum (n : ℚ)) = some n := by
  simp [JValue.asInt, Rat.den_intCast, Rat.num_intCast]

/-- String lists round-trip through a JSON array. -/
theorem asStrList_jstrList (xs : List String) : JValue.asStrList (jstrList xs) = some xs := by
  simp only [jstrList, JValue.asStrList]
  exact traverseOpt_map JValue.asStr JValue.jstr (fun _ => rfl) xs

/-- Number lists round-trip through a JSON array. -/
theorem asNumList_jnumList (xs : List ℚ) : JValue.asNumList (jnumList xs) = some xs := by
  simp only [jnumList, JValue.asNumList]
  exact traverseOpt_map JValue.asNum JValue.jnum (fun _ => rfl) xs

/-- String-to-number dicts round-trip through a JSON object. -/
theorem asNumMap_jnumMap (xs : List (String × ℚ)) : JValue.asNumMap (jnumMap xs) = some xs := by
  simp only [jnumMap, JValue.asNumMap]
  refine traverseOpt_map (fun p => Option.map (fun q => (p.1, q)) (JValue.asNum p.2))
    (fun p => (p.1, JValue.jnum p.2)) (fun a => ?_) xs
  obtain ⟨x, y⟩ := a
  rfl

/-- Sentiment analyses round-trip through JSON. -/
theorem SentimentAnalysis_fromJson_toJson (x : SentimentAnalysis) :
    SentimentAnalysis.fromJson? x.toJson = some x := by
  cases x
  simp [SentimentAnalysis.fromJson?, SentimentAnalysis.toJson, JValue.getField, pyLookup,
    JValue.asNum, JValue.asEnum, SentimentLabel_ofStr_toStr]

/-- Intent analyses round-trip through JSON. -/
theorem IntentAnalysis_fromJson_toJson (x : IntentAnalysis) :
    IntentAnalysis.fromJson? x.toJson = some x := by
  cases x
  simp [IntentAnalysis.fromJson?, IntentAnalysis.toJson, JValue.getField, pyLookup,
    JValue.asEnum, IntentPrimary_ofStr_toStr, IntentUrgency_ofStr_toStr, asStrList_jstrList]

/-- Emotion analyses round-trip through JSON. -/
theorem EmotionAnalysis_fromJson_toJson (x : EmotionAnalysis) :
    EmotionAnalysis.fromJson? x.toJson = some x := by
  cases x
  simp [EmotionAnalysis.fromJson?, EmotionAnalysis.toJson, JValue.getField, pyLookup,
    JValue.asNum, JValue.asBool, JValue.asEnum, EmotionPrimary_ofStr_toStr]

/-- Communication styles round-trip through JSON. -/
theorem CommunicationStyle_fromJson_toJson (x : CommunicationStyle) :
    CommunicationStyle.fromJson? x.toJson = some x := by
  cases x
  simp [CommunicationStyle.fromJson?, CommunicationStyle.toJson, JValue.getField, pyLookup,
    JValue.asNum]

/-- Big Five profiles round-trip through JSON. -/
theorem BigFivePersonality_fromJson_toJson (x : BigFivePersonality) :
    BigFivePersonality.fromJson? x.toJson = some x := by
  cases x
  simp [BigFivePersonality.fromJson?, BigFivePersonality.toJson, JValue.getField, pyLookup,
    JValue.asNum]

/-- Personality profiles round-trip through JSON. -/
theorem PersonalityProfile_fromJson_toJson (x : PersonalityProfile) :
    PersonalityProfile.fromJson? x.toJson = some x := by
  cases x
  simp [PersonalityProfile.fromJson?, PersonalityProfile.toJson, JValue.getField, pyLookup,
    JValue.asEnum, BigFivePersonality_fromJson_toJson, ThinkingStyle_ofStr_toStr,
    ProblemStyle_ofStr_toStr]

/-- Mental health indicators round-trip through JSON. -/
theorem MentalHealthIndicators_fromJson_toJson (x : MentalHealthIndicators) :
    MentalHealthIndicators.fromJson? x.toJson = some x := by
  cases x
  simp [MentalHealthIndicators.fromJson?, MentalHealthIndicators.toJson, JValue.getField,
    pyLookup, JValue.asNum, JValue.asEnum, RiskLevel_ofStr_toStr, AnxietyPattern_ofStr_toStr]

/-- Content flags round-trip through JSON. -/
theorem ContentFlags_fromJson_toJson (x : ContentFlags) :
    ContentFlags.fromJson? x.toJson = some x := by
  cases x
  simp [ContentFlags.fromJson?, ContentFlags.toJson, JValue.getField, pyLookup, JValue.asBool]

/-- Profanity detections round-trip through JSON. -/
theorem ProfanityDetection_fromJson_toJson (x : ProfanityDetection) :
    ProfanityDetection.fromJson? x.toJson = some x := by
  cases x
  simp [ProfanityDetection.fromJson?, ProfanityDetection.toJson, JValue.getField, pyLookup,
    JValue.asBool,
    asOptEnum_joptEnum ProfanitySeverity.ofStr ProfanitySeverity.toStr ProfanitySeverity_ofStr_toStr,
    asOptEnum_joptEnum TriggerCategory.ofStr TriggerCategory.toStr TriggerCategory_ofStr_toStr]

/-- Complexity metrics round-trip through JSON. -/
theorem ComplexityMetrics_fromJson_toJson (x : ComplexityMetrics) :
    ComplexityMetrics.fromJson? x.toJson = some x := by
  cases x
  simp [ComplexityMetrics.fromJson?, ComplexityMetrics.toJson, JValue.getField, pyLookup,
    JValue.asNum, JValue.asEnum, Readability_ofStr_toStr]

/-- Entity extractions round-trip through JSON. -/
theorem Entities_fromJson_toJson (x : Entities) :
    Entities.fromJson? x.toJson = some x := by
  cases x
  simp [Entities.fromJson?, Entities.toJson, JValue.getField, pyLookup,
    asStrList_jstrList, asNumList_jnumList]

/-- Speech patterns round-trip through JSON. -/
theorem SpeechPatterns_fromJson_toJson (x : SpeechPatterns) :
    SpeechPatterns.fromJson? x.toJson = some x := by
  cases x
  simp [SpeechPatterns.fromJson?, SpeechPatterns.toJson, JValue.getField, pyLookup,
    JValue.asNum, JValue.asEnum, asInt_jnum, Pace_ofStr_toStr]

/-- Social indicators round-trip through JSON. -/
theorem SocialIndicators_fromJson_toJson (x : SocialIndicators) :
    SocialIndicators.fromJson? x.toJson = some x := by
  cases x
  simp [SocialIndicators.fromJson?, SocialIndicators.toJson, JValue.getField, pyLookup,
    JValue.asNum, JValue.asEnum, asNumMap_jnumMap, SocialFocus_ofStr_toStr]

/-- Cognitive distortion flags round-trip through JSON. -/
theorem CognitiveDistortions_fromJson_toJson (x : CognitiveDistortions) :
    CognitiveDistortions.fromJson? x.toJson = some x := by
  cases x
  simp [CognitiveDistortions.fromJson?, CognitiveDistortions.toJson, JValue.getField,
    pyLookup, JValue.asBool]

/-- Question depth analyses round-trip through JSON. -/
theorem QuestionDepth_fromJson_toJson (x : QuestionDepth) :
    QuestionDepth.fromJson? x.toJson = some x := by
  cases x
  simp [QuestionDepth.fromJson?, QuestionDepth.toJson, JValue.getField, pyLookup,
    JValue.asBool, asInt_jnum]

/-- Optional question depths round-trip through JSON. -/
theorem asOptSub_joptSub_questionDepth (o : Option QuestionDepth) :
    JValue.asOptSub QuestionDepth.fromJson? (joptSub QuestionDepth.toJson o) = some o := by
  cases o with
  | none => rfl
  | some a =>
    have h1 : JValue.asOptSub QuestionDepth.fromJson? (joptSub QuestionDepth.toJson (some a)) =
        (QuestionDepth.fromJson? (QuestionDepth.toJson a)).map some := rfl
    rw [h1, QuestionDepth_fromJson_toJson]
    rfl

/-- Temporal contexts round-trip through JSON. -/
theorem TemporalContext_fromJson_toJson (x : TemporalContext) :
    TemporalContext.fromJson? x.toJson = some x := by
  cases x
  simp [TemporalContext.fromJson?, TemporalContext.toJson, JValue.getField, pyLookup,
    JValue.asNum, JValue.asEnum, CircadianPhase_ofStr_toStr, RiskLevel_ofStr_toStr]

/-- Language mixing detections round-trip through JSON. -/
theorem LanguageMixing_fromJson_toJson (x : LanguageMixing) :
    LanguageMixing.fromJson? x.toJson = some x := by
  cases x
  simp [LanguageMixing.fromJson?, LanguageMixing.toJson, JValue.getField, pyLookup,
    JValue.asNum, JValue.asEnum, asInt_jnum, DominantLanguage_ofStr_toStr]

/-- Creative signals round-trip through JSON. -/
theorem CreativeSignal_fromJson_toJson (x : CreativeSignal) :
    CreativeSignal.fromJson? x.toJson = some x := by
  cases x
  simp [CreativeSignal.fromJson?, CreativeSignal.toJson, JValue.getField, pyLookup,
    JValue.asNum, JValue.asBool, JValue.asEnum, NoveltyLevel_ofStr_toStr]

/-- Humor signals round-trip through JSON. -/
theorem HumorSignal_fromJson_toJson (x : HumorSignal) :
    HumorSignal.fromJson? x.toJson = some x := by
  cases x
  simp [HumorSignal.fromJson?, HumorSignal.toJson, JValue.getField, pyLookup, JValue.asBool,
    asOptEnum_joptEnum HumorType.ofStr HumorType.toStr HumorType_ofStr_toStr]

/-- Time perceptions round-trip through JSON. -/
theorem TimePerception_fromJson_toJson (x : TimePerception) :
    TimePerception.fromJson? x.toJson = some x := by
  cases x
  simp [TimePerception.fromJson?, TimePerception.toJson, JValue.getField, pyLookup,
    JValue.asBool, JValue.asEnum, TimeUrgency_ofStr_toStr]

/-- The core field group of a dumped analysis validates back. -/
theorem AITranscriptionAnalysis.fromJsonCore_toJson (x : AITranscriptionAnalysis) :
    AITranscriptionAnalysis.fromJsonCore? x.toJson =
      some (x.sentiment, x.intent, x.emotion, x.topics, x.communication_style,
        x.personality, x.mental_health) := by
  simp [AITranscriptionAnalysis.fromJsonCore?, AITranscriptionAnalysis.toJson,
    JValue.getField, pyLookup, SentimentAnalysis_fromJson_toJson,
    IntentAnalysis_fromJson_toJson, EmotionAnalysis_fromJson_toJson, asStrList_jstrList,
    CommunicationStyle_fromJson_toJson, PersonalityProfile_fromJson_toJson,
    MentalHealthIndicators_fromJson_toJson]

/-- The content field group of a dumped analysis validates back. -/
theorem AITranscriptionAnalysis.fromJsonContent_toJson (x : AITranscriptionAnalysis) :
    AITranscriptionAnalysis.fromJsonContent? x.toJson =
      some (x.content_flags, x.profanity, x.complexity, x.entities, x.speech_patterns,
        x.social_indicators, x.cognitive_distortions) := by
  simp [AITranscriptionAnalysis.fromJsonContent?, AITranscriptionAnalysis.toJson,
    JValue.getField, pyLookup, ContentFlags_fromJson_toJson,
    ProfanityDetection_fromJson_toJson, ComplexityMetrics_fromJson_toJson,
    Entities_fromJson_toJson, SpeechPatterns_fromJson_toJson,
    SocialIndicators_fromJson_toJson, CognitiveDistortions_fromJson_toJson]

/-- The tail field group of a dumped analysis validates back. -/
theorem AITranscriptionAnalysis.fromJsonTail_toJson (x : AITranscriptionAnalysis) :
    AITranscriptionAnalysis.fromJsonTail? x.toJson =
      some (x.question_depth, x.temporal_context, x.language_mixing, x.creative_signal,
        x.emotion_trigger, x.commitment_strength, x.humor, x.time_perception) := by
  simp [AITranscriptionAnalysis.fromJsonTail?, AITranscriptionAnalysis.toJson,
    JValue.getField, pyLookup, asOptSub_joptSub_questionDepth,
    TemporalContext_fromJson_toJson, LanguageMixing_fromJson_toJson,
    CreativeSignal_fromJson_toJson,
    asOptEnum_joptEnum EmotionTrigger.ofStr EmotionTrigger.toStr EmotionTrigger_ofStr_toStr,
    asOptEnum_joptEnum CommitmentStrength.ofStr CommitmentStrength.toStr
      CommitmentStrength_ofStr_toStr,
    HumorSignal_fromJson_toJson, TimePerception_fromJson_toJson]

/-- Complete analyses round-trip through JSON with full field fidelity. -/
theorem AITranscriptionAnalysis_fromJson_toJson (x : AITranscriptionAnalysis) :
    AITranscriptionAnalysis.fromJson? x.toJson = some x := by
  rw [AITranscriptionAnalysis.fromJson?, AITranscriptionAnalysis.fromJsonCore_toJson,
    AITranscriptionAnalysis.fromJsonContent_toJson, AITranscriptionAnalysis.fromJsonTail_toJson]
  rfl

/-- Id-keyed analysis maps round-trip through JSON. -/
theorem asAnalysesMap_encode (l : List (String × AITranscriptionAnalysis)) :
    JValue.asAnalysesMap (.jobj (l.map (fun p => (p.1, p.2.toJson)))) = some l := by
  simp only [JValue.asAnalysesMap]
  refine traverseOpt_map (fun p => (AITranscriptionAnalysis.fromJson? p.2).map (fun a => (p.1, a)))
    (fun p => (p.1, AITranscriptionAnalysis.toJson p.2)) (fun a => ?_) l
  obtain ⟨k, v⟩ := a
  simp [AITranscriptionAnalysis_fromJson_toJson]

/-- The whole cache store round-trips through its persisted JSON form. -/
theorem AIAnalysisCache_fromJson_toJson (c : AIAnalysisCache) :
    AIAnalysisCache.fromJson? c.toJson = some c := by
  cases c
  simp [AIAnalysisCache.fromJson?, AIAnalysisCache.toJson, JValue.getField, pyLookup,
    JValue.asStr, asAnalysesMap_encode]

/-- C8: for every `AITranscriptionAnalysis` value and id, writing it into
the cache with `set`, persisting with `save`, and constructing a fresh
cache instance over the same file yields, via `get` of that id, a value
equal in all fields to the original. -/
theorem cache_round_trip (x : AITranscriptionAnalysis) (id now now2 m2 p2 : String)
    (c : AICache) (disk : Disk) :
    (AICache.load c.path m2 p2 now2 ((c.set id x now).save disk)).bind
      (fun c2 => c2.get id) = some x := by
  simp only [AICache.set, AICache.save, Disk.write, AICache.load, Disk.read,
    pyLookup_pyDictInsert_self, AIAnalysisCache_fromJson_toJson, Option.map_some,
    Option.some_bind, AICache.get]
  exact pyLookup_pyDictInsert_self c.data.analyses id x

/-- C3: an entry whose id is already cached returns the cached value,
contacts no provider, consumes no concurrency slot, and increments
cache_hits while leaving new_entries and failed_count untouched. -/
theorem cache_hit_short_circuit (P : ClientParams) (env : Env) (t : Transcription)
    (s : ClientState) (v : AITranscriptionAnalysis) (h : s.cache.get t.id = some v) :
    analyze_one P env t s =
      (some v, { s with cache_hits := s.cache_hits + 1 }, ⟨[], false, .hit⟩) := by
  unfold analyze_one
  rw [h]

/-- Concrete instance of the cache-hit short circuit. -/
theorem cache_hit_short_circuit_witness :
    analyze_one zhipuParams envAllRaise ta (freshState [("id_a", sampleAnalysis)]) =
      (some sampleAnalysis,
       { freshState [("id_a", sampleAnalysis)] with cache_hits := 1 },
       ⟨[], false, .hit⟩) :=
  cache_hit_short_circuit zhipuParams envAllRaise ta
    (freshState [("id_a", sampleAnalysis)]) sampleAnalysis (by with_unfolding_all rfl)

/-- C2: a cache-missed entry whose turn comes when the accumulated cost
already meets or exceeds the ceiling yields absent with no provider
attempted and the state unchanged (in particular failed_count); with the
ceiling at 0 and an empty cache, every entry of any list is skipped this
way and the state is returned untouched. -/
theorem budget_short_circuit :
    (∀ (P : ClientParams) (env : Env) (t : Transcription) (s : ClientState),
      s.cache.get t.id = none → exceeded_budget P s = true →
      analyze_one P env t s = (none, s, ⟨[], true, .budget_skip⟩)) ∧
    (∀ (P : ClientParams) (env : Env) (ts : List Transcription) (s : ClientState),
      P.max_cost_cny = 0 → s.cache.data.analyses = [] → s.total_cost = 0 →
      analyze_batch_entries P env ts s =
        (ts.map fun _ => none, s, ts.map fun _ => ⟨[], true, .budget_skip⟩)) := by
  constructor
  · intro P env t s hmiss hbudget
    unfold analyze_one
    rw [hmiss]
    simp [hbudget]
  · intro P env ts s h0 hempty hcost
    have hone : ∀ t : Transcription,
        analyze_one P env t s = (none, s, ⟨[], true, .budget_skip⟩) := by
      intro t
      have hmiss : s.cache.get t.id = none := by
        unfold AICache.get
        rw [hempty]
        rfl
      have hbudget : exceeded_budget P s = true := by
        unfold exceeded_budget
        rw [h0, hcost]
        with_unfolding_all decide
      unfold analyze_one
      rw [hmiss]
      simp [hbudget]
    induction ts with
    | nil => rfl
    | cons t rest ih =>
      rw [analyze_batch_entries]
      simp only [hone t, ih, List.map_cons]

/-- Concrete instance of the zero-ceiling batch skip. -/
theorem budget_short_circuit_witness :
    analyze_batch_entries zhipuParamsZeroBudget (envSucceed none) [ta, tb] (freshState []) =
      ([none, none], freshState [],
       [⟨[], true, .budget_skip⟩, ⟨[], true, .budget_skip⟩]) := by
  have h := budget_short_circuit.2 zhipuParamsZeroBudget (envSucceed none) [ta, tb]
    (freshState []) (by with_unfolding_all rfl) (by with_unfolding_all rfl)
    (by with_unfolding_all rfl)
  simpa using h

/-- C1 fails on the code: `AIClient._calc_cost` resolves rates with a
provider-level `PRICING_TABLE` lookup only and never consults
`MODEL_PRICING`, although the table's own comment says the model-specific
rate takes precedence. On the free model glm-4-flash under zhipu with usage
(1000, 1000) the code charges 1/400 CNY where the claimed precedence gives
0, and a run accumulates the provider-level charge into its total cost. -/
theorem calc_cost_ignores_model_pricing :
    calc_cost .zhipu { prompt_tokens := 1000, completion_tokens := 1000 } = 1/400 ∧
    spec_calc_cost "glm-4-flash" .zhipu
      { prompt_tokens := 1000, completion_tokens := 1000 } = 0 ∧
    calc_cost .zhipu { prompt_tokens := 1000, completion_tokens := 1000 } ≠
      spec_calc_cost "glm-4-flash" .zhipu
        { prompt_tokens := 1000, completion_tokens := 1000 } ∧
    (analyze_one zhipuParams
        (envSucceed (some { prompt_tokens := 1000, completion_tokens := 1000 }))
        ta (freshState [])).2.1.total_cost = 1/400 :=
  ⟨by with_unfolding_all rfl, by with_unfolding_all rfl, by with_unfolding_all decide,
   by with_unfolding_all rfl⟩

/-- C10: the persisted cost record carries the running total rounded to 4
decimal places by round half to even, while the exposed run cost is the
unrounded running total; the two tie cases show the rounding is banker's,
and a state with total cost 0.00005 exposes 0.00005 but logs 0. -/
theorem cost_log_rounding :
    (∀ (P : ClientParams) (env : Env) (s : ClientState),
      (save_cost_log P env s).cost_log = s.cost_log ++ [mkCostRecord P env s] ∧
      (mkCostRecord P env s).cost_cny = pyRound4 s.total_cost ∧
      run_cost s = s.total_cost) ∧
    pyRound4 (1/20000) = 0 ∧
    pyRound4 (3/20000) = 1/5000 ∧
    run_cost { freshState [] with total_cost := 1/20000 } = 1/20000 ∧
    (mkCostRecord zhipuParams envAllRaise
      { freshState [] with total_cost := 1/20000 }).cost_cny = 0 :=
  ⟨fun _ _ _ => ⟨rfl, rfl, rfl⟩, by with_unfolding_all rfl, by with_unfolding_all rfl,
   by with_unfolding_all rfl, by with_unfolding_all rfl⟩

/-- C9 fails on the code: the run counters are zeroed only in
`AIClient.__init__`, never at the start of `analyze`, so on one orchestrator
two successive runs of one cache-hit entry each leave cache_hits at 2 while
the property docstring ("in the last analyze() call") and the spec
("reset each run") require 1 after the second run. -/
theorem run_stats_accumulate_across_runs :
    (AIAnalyzer.analyze zhipuParams envAllRaise [ta]
        (freshState [("id_a", sampleAnalysis), ("id_b", sampleAnalysis2)])).2.cache_hits
      = 1 ∧
    (AIAnalyzer.analyze zhipuParams envAllRaise [tb]
        (AIAnalyzer.analyze zhipuParams envAllRaise [ta]
          (freshState [("id_a", sampleAnalysis), ("id_b", sampleAnalysis2)])).2).2.cache_hits
      = 2 ∧
    (2 : ℤ) ≠ 1 :=
  ⟨by with_unfolding_all rfl, by with_unfolding_all rfl, by decide⟩

/-- Inserting a fresh key into a dict appends it at the end. -/
theorem pyDictInsert_append_of_not_mem {κ α : Type} [DecidableEq κ] (k : κ) (v : α) :
    ∀ d : List (κ × α), (∀ p ∈ d, p.1 ≠ k) → pyDictInsert d k v = d ++ [(k, v)] := by
  intro d
  induction d with
  | nil => intro _; rfl
  | cons p rest ih =>
    intro h
    obtain ⟨k1, v1⟩ := p
    rw [pyDictInsert, if_neg (h (k1, v1) (List.mem_cons_self _ _)), List.cons_append,
      ih (fun q hq => h q (List.mem_cons_of_mem _ hq))]

/-- Folding dict insertion over configurations with pairwise distinct
provider kinds appends them in order. -/
theorem chain_foldl_of_nodup :
    ∀ (l : List ModelConfig) (acc : List (ProviderType × ModelConfig)),
    (∀ c ∈ l, ∀ p ∈ acc, p.1 ≠ c.provider) →
    (l.map (fun c => c.provider)).Nodup →
    l.foldl (fun d cfg => pyDictInsert d cfg.provider cfg) acc
      = acc ++ l.map (fun c => (c.provider, c)) := by
  intro l
  induction l with
  | nil => intro acc _ _; simp
  | cons c rest ih =>
    intro acc hdisj hnodup
    rw [List.foldl_cons,
      pyDictInsert_append_of_not_mem c.provider c acc
        (fun p hp => hdisj c (List.mem_cons_self _ _) p hp)]
    rw [List.map_cons, List.nodup_cons] at hnodup
    rw [ih (acc ++ [(c.provider, c)]) ?hdisj2 hnodup.2]
    · simp
    · intro c2 hc2 p hp
      rcases List.mem_append.1 hp with hp | hp
      · exact hdisj c2 (List.mem_cons_of_mem _ hc2) p hp
      · have hpp : p = (c.provider, c) := by simpa using hp
        subst hpp
        intro hcontra
        refine hnodup.1 ?_
        have hc : c.provider = c2.provider := hcontra
        rw [hc]
        exact List.mem_map_of_mem (fun x => x.provider) hc2

/-- C6, amended: when every configured provider kind appears at most once,
the chain is the primary followed by the fallbacks in configured order,
each kind bound to its own configuration; the fail-over loop attempts the
chain in order and the first success returns that provider's result
immediately, with no further configuration attempted. -/
theorem provider_chain_order :
    (∀ P : ClientParams,
      ((P.primary :: P.fallbacks).map (fun c => c.provider)).Nodup →
      P.chain = (P.primary :: P.fallbacks).map (fun c => (c.provider, c))) ∧
    (∀ (env : Env) (t : Transcription) (s : ClientState)
        (cfgs rest : List (ProviderType × ModelConfig))
        (pc : ProviderType × ModelConfig) (r : AITranscriptionAnalysis)
        (u : Option TokenUsage),
      (∀ c ∈ cfgs, env.call c.2 t = .raises) →
      env.call pc.2 t = .succeeds r u →
      (tryProviders env t (cfgs ++ pc :: rest) s).1 = some r ∧
      (tryProviders env t (cfgs ++ pc :: rest) s).2.2
        = cfgs.map (fun c => c.2) ++ [pc.2]) := by
  constructor
  · intro P hnodup
    unfold ClientParams.chain
    rw [chain_foldl_of_nodup (P.primary :: P.fallbacks) [] (by simp) hnodup]
    rfl
  · intro env t s cfgs
    induction cfgs generalizing s with
    | nil =>
      intro rest pc r u _ hsucc
      obtain ⟨pt, config⟩ := pc
      rw [List.nil_append, tryProviders]
      rw [hsucc]
      exact ⟨rfl, rfl⟩
    | cons c cfgs ih =>
      intro rest pc r u hfail hsucc
      obtain ⟨pt, config⟩ := c
      rw [List.cons_append, tryProviders]
      rw [hfail (pt, config) (List.mem_cons_self _ _)]
      rcases htp : tryProviders env t (cfgs ++ pc :: rest) s with ⟨r2, s2, att⟩
      have hih := ih s rest pc r u (fun c2 hc2 => hfail c2 (List.mem_cons_of_mem _ hc2)) hsucc
      rw [htp] at hih
      simp only [htp]
      obtain ⟨h1, h2⟩ := hih
      subst h1
      constructor
      · rfl
      · have h2x : att = List.map (fun c => c.2) cfgs ++ [pc.2] := h2
        rw [h2x, List.map_cons, List.cons_append]

/-- C6 fails as literally stated: a fallback sharing the primary's provider
kind collapses into one chain slot holding the fallback's configuration, so
the primary is never attempted with its own configuration — the single
attempted configuration carries the fallback's model name. -/
theorem provider_chain_duplicate_counterexample :
    dsDupParams.chain = [(.deepseek, dsFallback)] ∧
    (analyze_one dsDupParams envAllRaise ta (freshState [])).2.2.attempts = [dsFallback] ∧
    dsFallback.model_name ≠ dsPrimary.model_name :=
  ⟨by with_unfolding_all rfl, by with_unfolding_all rfl, by decide⟩

/-- The provider loop never touches the persisted cost log. -/
theorem tryProviders_cost_log (env : Env) (t : Transcription) :
    ∀ (chain : List (ProviderType × ModelConfig)) (s : ClientState),
    (tryProviders env t chain s).2.1.cost_log = s.cost_log := by
  intro chain
  induction chain with
  | nil => intro s; rfl
  | cons pc rest ih =>
    intro s
    obtain ⟨pt, config⟩ := pc
    rw [tryProviders]
    cases env.call config t with
    | raises =>
      rcases htp : tryProviders env t rest s with ⟨r, s2, att⟩
      have h := ih s
      rw [htp] at h
      simpa [htp] using h
    | succeeds result usage? =>
      cases usage? with
      | none =>
        dsimp only
        split <;> rfl
      | some u =>
        dsimp only
        split <;> rfl

/-- A single entry never touches the persisted cost log. -/
theorem analyze_one_cost_log (P : ClientParams) (env : Env) (t : Transcription)
    (s : ClientState) : (analyze_one P env t s).2.1.cost_log = s.cost_log := by
  unfold analyze_one
  cases hc : s.cache.get t.id with
  | some v => rfl
  | none =>
    by_cases hb : exceeded_budget P s = true
    · simp [hb]
    · rw [if_neg (by simpa using hb)]
      rcases htp : tryProviders env t P.chain s with ⟨r, s2, att⟩
      have h := tryProviders_cost_log env t P.chain s
      rw [htp] at h
      cases r with
      | some v => simpa [htp] using h
      | none => simpa [htp] using h

/-- A batch of entries never touches the persisted cost log. -/
theorem analyze_batch_entries_cost_log (P : ClientParams) (env : Env) :
    ∀ (ts : List Transcription) (s : ClientState),
    (analyze_batch_entries P env ts s).2.1.cost_log = s.cost_log := by
  intro ts
  induction ts with
  | nil => intro s; rfl
  | cons t rest ih =>
    intro s
    rw [analyze_batch_entries]
    rcases h1 : analyze_one P env t s with ⟨r, s1, tr⟩
    rcases h2 : analyze_batch_entries P env rest s1 with ⟨rs, s2, trs⟩
    have e1 := analyze_one_cost_log P env t s
    rw [h1] at e1
    have e2 := ih s1
    rw [h2] at e2
    simp only [h1, h2]
    exact e2.trans e1

/-- The async batch preserves the persisted cost log. -/
theorem analyze_batch_async_cost_log (P : ClientParams) (env : Env)
    (ts : List Transcription) (s : ClientState) :
    (analyze_batch_async P env ts s).2.1.cost_log = s.cost_log := by
  unfold analyze_batch_async
  cases h : env.interrupt with
  | none =>
    rcases hb : analyze_batch_entries P env ts s with ⟨rs, s1, trs⟩
    have e := analyze_batch_entries_cost_log P env ts s
    rw [hb] at e
    simpa [hb] using e
  | some p =>
    obtain ⟨k, kind⟩ := p
    rcases hb : analyze_batch_entries P env (ts.take k) s with ⟨rs, s1, trs⟩
    have e := analyze_batch_entries_cost_log P env (ts.take k) s
    rw [hb] at e
    cases kind <;> simpa [hb] using e

/-- When the batch is not interrupted, the gather completes. -/
theorem analyze_batch_async_of_no_interrupt (P : ClientParams) (env : Env)
    (ts : List Transcription) (s : ClientState) (h : env.interrupt = none) :
    (analyze_batch_async P env ts s).1 = .ok (analyze_batch_entries P env ts s).1 := by
  unfold analyze_batch_async
  rw [h]

/-- An interruption of the batch propagates out of the gather. -/
theorem analyze_batch_async_of_interrupt (P : ClientParams) (env : Env)
    (ts : List Transcription) (s : ClientState) (k : ℕ) (kind : InterruptKind)
    (h : env.interrupt = some (k, kind)) :
    (analyze_batch_async P env ts s).1 = .interrupted kind := by
  unfold analyze_batch_async
  rw [h]
  rcases analyze_batch_entries P env (ts.take k) s with ⟨rs, s1, trs⟩
  cases kind <;> rfl

/-- C7: on every exit path of `analyze` — normal completion or an
interruption of the batch — the final state has the current cache contents
persisted at the cache path, exactly one cost record appended to the cost
log, and the outcome re-raises an interruption rather than swallowing it. -/
theorem flush_on_every_exit_path (P : ClientParams) (env : Env)
    (ts : List Transcription) (s : ClientState) :
    ((AIAnalyzer.analyze P env ts s).2.disk.read (AIAnalyzer.analyze P env ts s).2.cache.path
      = some (AIAnalyzer.analyze P env ts s).2.cache.data.toJson) ∧
    (∃ rec, (AIAnalyzer.analyze P env ts s).2.cost_log = s.cost_log ++ [rec]) ∧
    (env.interrupt = none →
      ∃ m, (AIAnalyzer.analyze P env ts s).1 = RunOutcome.ok m) ∧
    (∀ (k : ℕ) (kind : InterruptKind), env.interrupt = some (k, kind) →
      (AIAnalyzer.analyze P env ts s).1 = RunOutcome.interrupted kind) := by
  have hlog := analyze_batch_async_cost_log P env ts s
  have hno := analyze_batch_async_of_no_interrupt P env ts s
  have hint := analyze_batch_async_of_interrupt P env ts s
  rcases hb : analyze_batch_async P env ts s with ⟨br, s1, trs⟩
  rw [hb] at hlog
  have hA : AIAnalyzer.analyze P env ts s
      = (runOutcomeOf ts br,
         save_cost_log P env { s1 with disk := s1.cache.save s1.disk }) := by
    unfold AIAnalyzer.analyze
    rw [hb]
    cases br <;> rfl
  refine ⟨?_, ?_, ?_, ?_⟩
  · rw [hA]
    show Disk.read (s1.cache.save s1.disk) s1.cache.path = some s1.cache.data.toJson
    unfold AICache.save Disk.write Disk.read
    exact pyLookup_pyDictInsert_self s1.disk s1.cache.path s1.cache.data.toJson
  · refine ⟨mkCostRecord P env { s1 with disk := s1.cache.save s1.disk }, ?_⟩
    rw [hA]
    show s1.cost_log ++ _ = s.cost_log ++ _
    rw [hlog]
  · intro h
    have hbr0 := hno h
    rw [hb] at hbr0
    have hbr : br = BatchResult.ok (analyze_batch_entries P env ts s).1 := hbr0
    refine ⟨buildResults ts (analyze_batch_entries P env ts s).1, ?_⟩
    rw [hA, hbr]
    rfl
  · intro k kind h
    have hbr0 := hint k kind h
    rw [hb] at hbr0
    have hbr : br = BatchResult.interrupted kind := hbr0
    rw [hA, hbr]
    rfl

/-- When every provider in the chain raises, the loop attempts each
configuration in order, leaves the state untouched, and returns nothing. -/
theorem tryProviders_all_raise (env : Env) (t : Transcription) :
    ∀ (chain : List (ProviderType × ModelConfig)) (s : ClientState),
    (∀ pc ∈ chain, env.call pc.2 t = .raises) →
    tryProviders env t chain s = (none, s, chain.map (fun pc => pc.2)) := by
  intro chain
  induction chain with
  | nil => intro s _; rfl
  | cons pc rest ih =>
    intro s h
    obtain ⟨pt, config⟩ := pc
    rw [tryProviders, h (pt, config) (List.mem_cons_self _ _),
      ih s (fun q hq => h q (List.mem_cons_of_mem _ hq))]
    rfl

/-- C4: a cache-missed, within-budget entry for which every configured
provider raises yields absent, increments failed_count by exactly one while
touching nothing else of the state; the batch recursion still processes
the remaining entries, and an absent result contributes nothing to the
returned map. -/
theorem total_failover_counts_one_failure :
    (∀ (P : ClientParams) (env : Env) (t : Transcription) (s : ClientState),
      s.cache.get t.id = none → exceeded_budget P s = false →
      (∀ pc ∈ P.chain, env.call pc.2 t = .raises) →
      analyze_one P env t s =
        (none, { s with failed_count := s.failed_count + 1 },
         ⟨P.chain.map (fun pc => pc.2), true, .failure⟩)) ∧
    (∀ (P : ClientParams) (env : Env) (t : Transcription) (ts : List Transcription)
        (s : ClientState),
      (analyze_batch_entries P env (t :: ts) s).1
        = (analyze_one P env t s).1
          :: (analyze_batch_entries P env ts (analyze_one P env t s).2.1).1) ∧
    (∀ (ts : List Transcription) (rs : List (Option AITranscriptionAnalysis))
        (t : Transcription),
      buildResults (t :: ts) (none :: rs) = buildResults ts rs) := by
  refine ⟨?_, ?_, ?_⟩
  · intro P env t s hmiss hbudget hall
    unfold analyze_one
    rw [hmiss, if_neg (by simp [hbudget]), tryProviders_all_raise env t P.chain s hall]
  · intro P env t ts s
    rw [analyze_batch_entries]
  · intro ts rs t
    rfl

/-- Concrete instance of the total fail-over: one entry, all providers
raising, ends with one failure and an empty result. -/
theorem total_failover_witness :
    analyze_one zhipuParams envAllRaise ta (freshState []) =
      (none, { freshState [] with failed_count := 1 },
       ⟨[zhipuConfig], true, .failure⟩) := by
  have h := total_failover_counts_one_failure.1 zhipuParams envAllRaise ta (freshState [])
    (by with_unfolding_all rfl) (by with_unfolding_all rfl)
    (fun pc _ => rfl)
  simpa using h

/-- A single entry produces a result exactly when it was a cache hit or a
successful provider call. -/
theorem analyze_one_isSome_iff (P : ClientParams) (env : Env) (t : Transcription)
    (s : ClientState) :
    ((analyze_one P env t s).1.isSome = true) ↔
      ((analyze_one P env t s).2.2.outcome = .hit ∨
       (analyze_one P env t s).2.2.outcome = .success) := by
  unfold analyze_one
  cases hc : s.cache.get t.id with
  | some v => simp
  | none =>
    by_cases hb : exceeded_budget P s = true
    · simp [hb]
    · rw [if_neg (by simpa using hb)]
      rcases htp : tryProviders env t P.chain s with ⟨r, s2, att⟩
      cases r <;> simp

/-- Across a batch, each aligned result and trace pair agrees: a result is
present exactly when the trace records a hit or a success. -/
theorem batch_zip_outcomes (P : ClientParams) (env : Env) :
    ∀ (ts : List Transcription) (s : ClientState),
    ∀ p ∈ List.zip (analyze_batch_entries P env ts s).1
        (analyze_batch_entries P env ts s).2.2,
      (p.1.isSome = true) ↔ (p.2.outcome = .hit ∨ p.2.outcome = .success) := by
  intro ts
  induction ts with
  | nil => intro s p hp; simp [analyze_batch_entries] at hp
  | cons t rest ih =>
    intro s p hp
    rw [analyze_batch_entries] at hp
    rcases h1 : analyze_one P env t s with ⟨r, s1, tr⟩
    rw [h1] at hp
    dsimp only at hp
    rcases h2 : analyze_batch_entries P env rest s1 with ⟨rs, s2, trs⟩
    rw [h2] at hp
    dsimp only at hp
    simp only [List.zip_cons_cons, List.mem_cons] at hp
    rcases hp with hp | hp
    · subst hp
      have := analyze_one_isSome_iff P env t s
      rw [h1] at this
      exact this
    · have := ih s1 p
      rw [h2] at this
      exact this hp

/-- Lookup in the accumulated result dict is populated exactly by the
accumulator and the entries carrying a result. -/
theorem buildFold_lookup_isSome :
    ∀ (pairs : List (Transcription × Option AITranscriptionAnalysis))
      (acc : List (String × AITranscriptionAnalysis)) (id : String),
      ((pyLookup id (pairs.foldl buildStep acc)).isSome = true) ↔
      ((pyLookup id acc).isSome = true ∨ ∃ p ∈ pairs, p.1.id = id ∧ p.2.isSome = true) := by
  intro pairs
  induction pairs with
  | nil => intro acc id; simp
  | cons hd rest ih =>
    intro acc id
    obtain ⟨t, r⟩ := hd
    rw [List.foldl_cons]
    cases r with
    | none =>
      rw [show buildStep acc (t, none) = acc from rfl, ih]
      simp
    | some v =>
      rw [show buildStep acc (t, some v) = pyDictInsert acc t.id v from rfl, ih]
      by_cases hid : t.id = id
      · rw [← hid, pyLookup_pyDictInsert_self]
        simp [hid]
      · rw [pyLookup_pyDictInsert_ne acc t.id id v (fun hh => hid hh.symm)]
        simp only [List.mem_cons]
        constructor
        · rintro (h | ⟨p, hp, hpid, hps⟩)
          · exact Or.inl h
          · exact Or.inr ⟨p, Or.inr hp, hpid, hps⟩
        · rintro (h | ⟨p, hp | hp, hpid, hps⟩)
          · exact Or.inl h
          · subst hp
            exact absurd hpid hid
          · exact Or.inr ⟨p, hp, hpid, hps⟩

/-- A value bound in the accumulated result dict comes from the accumulator
or from an entry that produced exactly that value. -/
theorem buildFold_lookup_value :
    ∀ (pairs : List (Transcription × Option AITranscriptionAnalysis))
      (acc : List (String × AITranscriptionAnalysis)) (id : String)
      (v : AITranscriptionAnalysis),
      pyLookup id (pairs.foldl buildStep acc) = some v →
      (pyLookup id acc = some v ∨ ∃ p ∈ pairs, p.1.id = id ∧ p.2 = some v) := by
  intro pairs
  induction pairs with
  | nil => intro acc id v h; exact Or.inl h
  | cons hd rest ih =>
    intro acc id v h
    obtain ⟨t, r⟩ := hd
    rw [List.foldl_cons] at h
    cases r with
    | none =>
      rw [show buildStep acc (t, none) = acc from rfl] at h
      rcases ih acc id v h with h | ⟨p, hp, hpid, hpv⟩
      · exact Or.inl h
      · exact Or.inr ⟨p, List.mem_cons_of_mem _ hp, hpid, hpv⟩
    | some w =>
      rw [show buildStep acc (t, some w) = pyDictInsert acc t.id w from rfl] at h
      rcases ih _ id v h with h | ⟨p, hp, hpid, hpv⟩
      · by_cases hid : t.id = id
        · rw [← hid, pyLookup_pyDictInsert_self] at h
          refine Or.inr ⟨(t, some w), List.mem_cons_self _ _, hid, ?_⟩
          rw [Option.some_inj.1 h]
        · rw [pyLookup_pyDictInsert_ne acc t.id id w (fun hh => hid hh.symm)] at h
          exact Or.inl h
      · exact Or.inr ⟨p, List.mem_cons_of_mem _ hp, hpid, hpv⟩

/-- A batch yields exactly one aligned result per input entry. -/
theorem analyze_batch_entries_length (P : ClientParams) (env : Env) :
    ∀ (ts : List Transcription) (s : ClientState),
    (analyze_batch_entries P env ts s).1.length = ts.length := by
  intro ts
  induction ts with
  | nil => intro s; rfl
  | cons t rest ih =>
    intro s
    rw [analyze_batch_entries]
    rcases h1 : analyze_one P env t s with ⟨r, s1, tr⟩
    rcases h2 : analyze_batch_entries P env rest s1 with ⟨rs, s2, trs⟩
    have := ih s1
    rw [h2] at this
    simpa [h1, h2] using this

/-- C5: results align 1:1 with the input list; an entry carries a result
exactly when it was a cache hit or a successful provider call; the returned
map binds an id exactly when some input entry with that id carried a
result, and every bound value is the result its own entry produced — failed
or budget-skipped entries are simply absent. -/
theorem result_map_exactness :
    (∀ (P : ClientParams) (env : Env) (ts : List Transcription) (s : ClientState),
      (analyze_batch_entries P env ts s).1.length = ts.length) ∧
    (∀ (P : ClientParams) (env : Env) (ts : List Transcription) (s : ClientState),
      ∀ p ∈ List.zip (analyze_batch_entries P env ts s).1
          (analyze_batch_entries P env ts s).2.2,
        (p.1.isSome = true) ↔ (p.2.outcome = .hit ∨ p.2.outcome = .success)) ∧
    (∀ (ts : List Transcription) (rs : List (Option AITranscriptionAnalysis))
        (id : String),
      ((pyLookup id (buildResults ts rs)).isSome = true) ↔
        ∃ p ∈ List.zip ts rs, p.1.id = id ∧ p.2.isSome = true) ∧
    (∀ (ts : List Transcription) (rs : List (Option AITranscriptionAnalysis))
        (id : String) (v : AITranscriptionAnalysis),
      pyLookup id (buildResults ts rs) = some v →
        ∃ p ∈ List.zip ts rs, p.1.id = id ∧ p.2 = some v) := by
  refine ⟨analyze_batch_entries_length, batch_zip_outcomes, ?_, ?_⟩
  · intro ts rs id
    unfold buildResults
    rw [buildFold_lookup_isSome]
    simp [pyLookup]
  · intro ts rs id v h
    unfold buildResults at h
    rcases buildFold_lookup_value (List.zip ts rs) [] id v h with h | h
    · simp [pyLookup] at h
    · exact h
